import Mathlib

/-!
Shallow embedding of the trip-planning backend's core: the access-control
predicate, the trip aggregate mutator over the three embedded collections
(activities, expenses, packing items), and the collaboration manager
(`src/routers/trips_router.py`, `src/routers/activities_router.py`,
`src/routers/expenses_router.py`, `src/routers/packing_router.py`,
`src/models.py`).

Modelling conventions:
- MongoDB ObjectId strings are Lean `String`s in canonical form; validity is
  the 24-hex-character check of `bson.ObjectId.is_valid`.
- `datetime` values are abstract `Int` timestamps; `float` amounts are `ℚ`.
- The document store is a `DB` holding the `trips` and `users` collections as
  lists; `find_one` is first match, `update_one` modifies the first matching
  document, `$push` appends, `$pull` removes all matching array elements, and
  a positional `$set` on `array.$` rewrites the first matching array element
  (a no-op when the filter matches no document).
- Each HTTP handler is a function of the store and its request parameters.
  Handlers that write return `DB × Except HErr α`; an `HTTPException` raised
  before any write leaves the store unchanged, exactly as in the source.
  Fresh server-generated ObjectIds and `datetime.utcnow()` are explicit
  parameters.
-/

namespace VP

/-- `bson.ObjectId.is_valid` on a string: 24 hexadecimal characters. -/
def isHexDigit (c : Char) : Bool :=
  (('0' ≤ c && c ≤ '9') || ('a' ≤ c && c ≤ 'f')) || ('A' ≤ c && c ≤ 'F')

/-- Validity of an ObjectId string (`ObjectId.is_valid` in the routers). -/
def isValidOid (s : String) : Bool :=
  s.length == 24 && s.data.all isHexDigit

/-- `models.Activity`: an itinerary entry embedded in a trip. -/
structure Activity where
  id : String
  title : String
  time : String
  location : String
  activity_type : String
  notes : String
  cost : ℚ
  day : Int
  order : Int
deriving Repr, DecidableEq

/-- `models.Expense`: an expense entry embedded in a trip. -/
structure Expense where
  id : String
  title : String
  amount : ℚ
  category : String
  date : Int
  notes : String
deriving Repr, DecidableEq

/-- `models.PackingItem`: a packing-list entry embedded in a trip. -/
structure PackingItem where
  id : String
  name : String
  category : String
  packed : Bool
  notes : String
deriving Repr, DecidableEq

/-- `models.User` (the fields the trip routers read). -/
structure User where
  id : String
  email : String
  username : String
  hashed_password : String
  created_at : Int
deriving Repr, DecidableEq

/-- `models.Trip`: the aggregate root, with its three embedded collections. -/
structure Trip where
  id : String
  title : String
  destination : String
  start_date : Int
  end_date : Int
  budget : ℚ
  owner_id : String
  collaborators : List String
  activities : List Activity
  expenses : List Expense
  packing_items : List PackingItem
  notes : String
  created_at : Int
  updated_at : Int
deriving Repr, DecidableEq

/-- `models.TripUpdate`: the partial-update payload for trip details. -/
structure TripUpdate where
  title : Option String
  destination : Option String
  start_date : Option Int
  end_date : Option Int
  budget : Option ℚ
  notes : Option String
deriving Repr, DecidableEq

/-- An `HTTPException`: status code and detail message. -/
structure HErr where
  status : Nat
  detail : String
deriving Repr, DecidableEq

/-- The document store: the `trips` and `users` collections. -/
structure DB where
  trips : List Trip
  users : List User
deriving Repr, DecidableEq

/-- Rewrite the first element satisfying `p` by `f` (Mongo positional `$`
update / `update_one` on the first matching document). -/
def setFirst (p : α → Bool) (f : α → α) : List α → List α
  | [] => []
  | x :: xs => if p x then f x :: xs else x :: setFirst p f xs

/-- Remove the first element satisfying `p` (`delete_one`). -/
def removeFirst (p : α → Bool) : List α → List α
  | [] => []
  | x :: xs => if p x then xs else x :: removeFirst p xs

/-- `db.trips.find_one({"_id": ObjectId(tid)})`. -/
def findTrip (db : DB) (tid : String) : Option Trip :=
  db.trips.find? (fun t => t.id == tid)

/-- `db.users.find_one({"email": email})`. -/
def findUser (db : DB) (email : String) : Option User :=
  db.users.find? (fun u => u.email == email)

/-- `db.trips.update_one({"_id": ObjectId(tid)}, ...)` applying `f` to the
matched trip document. -/
def modifyTrip (db : DB) (tid : String) (f : Trip → Trip) : DB :=
  { db with trips := setFirst (fun t => t.id == tid) f db.trips }

/-- Modelled from the spec: the access-control predicate `canAccess(T,U)`,
true iff `U == T.owner_id` or `U ∈ T.collaborators` (§4.1). The handlers in
the source inline its negation as
`trip_obj.owner_id != current_user.id and current_user.id not in trip_obj.collaborators`. -/
def canAccess (t : Trip) (uid : String) : Bool :=
  t.owner_id == uid || t.collaborators.contains uid

/-- The inline denial test each handler performs before proceeding. -/
def deniesAccess (t : Trip) (uid : String) : Bool :=
  t.owner_id != uid && !(t.collaborators.contains uid)

/-- `$push` of an activity onto a trip's `activities` array. -/
def pushActivity (a : Activity) (t : Trip) : Trip :=
  { t with activities := t.activities ++ [a] }

/-- `$push` of an expense onto a trip's `expenses` array. -/
def pushExpense (e : Expense) (t : Trip) : Trip :=
  { t with expenses := t.expenses ++ [e] }

/-- `$push` of a packing item onto a trip's `packing_items` array. -/
def pushPackingItem (it : PackingItem) (t : Trip) : Trip :=
  { t with packing_items := t.packing_items ++ [it] }

/-- `$push` of a user id onto a trip's `collaborators` array. -/
def pushCollaborator (cid : String) (t : Trip) : Trip :=
  { t with collaborators := t.collaborators ++ [cid] }

/-- `$pull` of every activity with the given `_id`. -/
def pullActivity (aid : String) (t : Trip) : Trip :=
  { t with activities := t.activities.filter (fun x => !(x.id == aid)) }

/-- `$pull` of every expense with the given `_id`. -/
def pullExpense (eid : String) (t : Trip) : Trip :=
  { t with expenses := t.expenses.filter (fun x => !(x.id == eid)) }

/-- `$pull` of every packing item with the given `_id`. -/
def pullPackingItem (pid : String) (t : Trip) : Trip :=
  { t with packing_items := t.packing_items.filter (fun x => !(x.id == pid)) }

/-- Positional `$set` of the `packed` flag of the first matching item. -/
def setPacked (pid : String) (b : Bool) (t : Trip) : Trip :=
  { t with packing_items :=
      setFirst (fun x => x.id == pid) (fun x => { x with packed := b }) t.packing_items }

/-- `GET /trips/{trip_id}` (`get_trip` in `trips_router.py`). -/
def get_trip (db : DB) (tid uid : String) : Except HErr Trip :=
  if !(isValidOid tid) then .error ⟨400, "Invalid trip ID"⟩ else
  match findTrip db tid with
  | none => .error ⟨404, "Trip not found"⟩
  | some t =>
    if deniesAccess t uid then .error ⟨403, "Access denied"⟩
    else .ok t

/-- `trip_update.dict()` with every field `None`: the `$set` is skipped. -/
def TripUpdate.isEmptyUpd (u : TripUpdate) : Bool :=
  u.title.isNone && u.destination.isNone && u.start_date.isNone &&
  u.end_date.isNone && u.budget.isNone && u.notes.isNone

/-- The `$set` of the non-`None` fields of a `TripUpdate`, plus `updated_at`. -/
def applyTripUpdate (u : TripUpdate) (now : Int) (t : Trip) : Trip :=
  { t with
    title := u.title.getD t.title,
    destination := u.destination.getD t.destination,
    start_date := u.start_date.getD t.start_date,
    end_date := u.end_date.getD t.end_date,
    budget := u.budget.getD t.budget,
    notes := u.notes.getD t.notes,
    updated_at := now }

/-- `PUT /trips/{trip_id}` (`update_trip`): owner-only partial update of the
trip's scalar fields, refreshing `updated_at`, then re-reading the trip. -/
def update_trip (db : DB) (tid : String) (u : TripUpdate) (now : Int)
    (uid : String) : DB × Except HErr Trip :=
  if !(isValidOid tid) then (db, .error ⟨400, "Invalid trip ID"⟩) else
  match findTrip db tid with
  | none => (db, .error ⟨404, "Trip not found"⟩)
  | some t =>
    if t.owner_id != uid then
      (db, .error ⟨403, "Only trip owner can update trip details"⟩)
    else
      let db2 := if u.isEmptyUpd then db else modifyTrip db tid (applyTripUpdate u now)
      match findTrip db2 tid with
      | some t2 => (db2, .ok t2)
      | none => (db2, .error ⟨500, "Internal Server Error"⟩)

/-- `DELETE /trips/{trip_id}` (`delete_trip`): owner-only removal. -/
def delete_trip (db : DB) (tid uid : String) : DB × Except HErr String :=
  if !(isValidOid tid) then (db, .error ⟨400, "Invalid trip ID"⟩) else
  match findTrip db tid with
  | none => (db, .error ⟨404, "Trip not found"⟩)
  | some t =>
    if t.owner_id != uid then
      (db, .error ⟨403, "Only trip owner can delete trip"⟩)
    else
      ({ db with trips := removeFirst (fun t2 => t2.id == tid) db.trips },
       .ok "Trip deleted successfully")

/-- `POST /trips/{trip_id}/collaborators/{user_email}` (`add_collaborator`):
owner-only; resolves the email and `$push`es the user id unless already a
collaborator. -/
def add_collaborator (db : DB) (tid email uid : String) :
    DB × Except HErr String :=
  if !(isValidOid tid) then (db, .error ⟨400, "Invalid trip ID"⟩) else
  match findTrip db tid with
  | none => (db, .error ⟨404, "Trip not found"⟩)
  | some t =>
    if t.owner_id != uid then
      (db, .error ⟨403, "Only trip owner can add collaborators"⟩)
    else match findUser db email with
    | none => (db, .error ⟨404, "User not found"⟩)
    | some v =>
      if !(t.collaborators.contains v.id) then
        (modifyTrip db tid (pushCollaborator v.id),
         .ok "Collaborator added successfully")
      else (db, .ok "Collaborator added successfully")

/-- `POST /trips/join/{trip_id}` (`join_trip`): rejects the owner and existing
collaborators, otherwise `$push`es the caller and returns the re-read trip. -/
def join_trip (db : DB) (tid uid : String) : DB × Except HErr Trip :=
  if !(isValidOid tid) then (db, .error ⟨400, "Invalid trip ID"⟩) else
  match findTrip db tid with
  | none => (db, .error ⟨404, "Trip not found"⟩)
  | some t =>
    if t.owner_id == uid then
      (db, .error ⟨400, "You are already the owner of this trip"⟩)
    else if t.collaborators.contains uid then
      (db, .error ⟨400, "You are already a collaborator of this trip"⟩)
    else
      let db2 := modifyTrip db tid (pushCollaborator uid)
      match findTrip db2 tid with
      | some t2 => (db2, .ok t2)
      | none => (db2, .error ⟨500, "Internal Server Error"⟩)

/-- `POST /activities/{trip_id}` (`create_activity`): access-checked append
with a fresh server-generated `_id`. -/
def create_activity (db : DB) (tid : String) (a : Activity) (fresh : String)
    (uid : String) : DB × Except HErr Activity :=
  if !(isValidOid tid) then (db, .error ⟨400, "Invalid trip ID"⟩) else
  match findTrip db tid with
  | none => (db, .error ⟨404, "Trip not found"⟩)
  | some t =>
    if deniesAccess t uid then (db, .error ⟨403, "Access denied"⟩)
    else
      (modifyTrip db tid (pushActivity { a with id := fresh }),
       .ok { a with id := fresh })

/-- `GET /activities/{trip_id}` (`get_trip_activities`). -/
def get_trip_activities (db : DB) (tid uid : String) :
    Except HErr (List Activity) :=
  if !(isValidOid tid) then .error ⟨400, "Invalid trip ID"⟩ else
  match findTrip db tid with
  | none => .error ⟨404, "Trip not found"⟩
  | some t =>
    if deniesAccess t uid then .error ⟨403, "Access denied"⟩
    else .ok t.activities

/-- The `update_one` of `update_activity`: a positional `$set` of the whole
array element when the filter `{_id: tid, activities._id: aid}` matches. -/
def replaceActivity (aid : String) (a : Activity) (t : Trip) : Trip :=
  if t.activities.any (fun x => x.id == aid) then
    { t with activities := setFirst (fun x => x.id == aid) (fun _ => a) t.activities }
  else t

/-- `PUT /activities/{trip_id}/{activity_id}` (`update_activity`): wholesale
replacement of the matched element, `_id` forced to the path parameter. -/
def update_activity (db : DB) (tid aid : String) (a : Activity)
    (uid : String) : DB × Except HErr Activity :=
  if !(isValidOid tid && isValidOid aid) then (db, .error ⟨400, "Invalid ID"⟩) else
  match findTrip db tid with
  | none => (db, .error ⟨404, "Trip not found"⟩)
  | some t =>
    if deniesAccess t uid then (db, .error ⟨403, "Access denied"⟩)
    else
      (modifyTrip db tid (replaceActivity aid { a with id := aid }),
       .ok { a with id := aid })

/-- `DELETE /activities/{trip_id}/{activity_id}` (`delete_activity`): `$pull`
of every element with the given `_id`. -/
def delete_activity (db : DB) (tid aid uid : String) :
    DB × Except HErr String :=
  if !(isValidOid tid && isValidOid aid) then (db, .error ⟨400, "Invalid ID"⟩) else
  match findTrip db tid with
  | none => (db, .error ⟨404, "Trip not found"⟩)
  | some t =>
    if deniesAccess t uid then (db, .error ⟨403, "Access denied"⟩)
    else
      (modifyTrip db tid (pullActivity aid), .ok "Activity deleted successfully")

/-- One iteration of the reorder loop: `update_one({_id: tid,
activities._id: aid}, {$set: {activities.$.order: ord}})`, skipped when the
identifier is not a valid ObjectId. -/
def applyReorder (orders : List (String × Int)) (acts : List Activity) :
    List Activity :=
  orders.foldl
    (fun as p =>
      if isValidOid p.1 then
        setFirst (fun a => a.id == p.1) (fun a => { a with order := p.2 }) as
      else as)
    acts

/-- The cumulative effect of the reorder loop on the trip document. -/
def setOrders (orders : List (String × Int)) (t : Trip) : Trip :=
  { t with activities := applyReorder orders t.activities }

/-- `PUT /activities/{trip_id}/reorder` (`reorder_activities`): each
`{activity_id, order}` entry of the body is modelled as a pair. -/
def reorder_activities (db : DB) (tid : String) (orders : List (String × Int))
    (uid : String) : DB × Except HErr String :=
  if !(isValidOid tid) then (db, .error ⟨400, "Invalid trip ID"⟩) else
  match findTrip db tid with
  | none => (db, .error ⟨404, "Trip not found"⟩)
  | some t =>
    if deniesAccess t uid then (db, .error ⟨403, "Access denied"⟩)
    else
      (modifyTrip db tid (setOrders orders), .ok "Activities reordered successfully")

/-- `POST /expenses/{trip_id}` (`create_expense`). -/
def create_expense (db : DB) (tid : String) (e : Expense) (fresh : String)
    (uid : String) : DB × Except HErr Expense :=
  if !(isValidOid tid) then (db, .error ⟨400, "Invalid trip ID"⟩) else
  match findTrip db tid with
  | none => (db, .error ⟨404, "Trip not found"⟩)
  | some t =>
    if deniesAccess t uid then (db, .error ⟨403, "Access denied"⟩)
    else
      (modifyTrip db tid (pushExpense { e with id := fresh }),
       .ok { e with id := fresh })

/-- `GET /expenses/{trip_id}` (`get_trip_expenses`). -/
def get_trip_expenses (db : DB) (tid uid : String) :
    Except HErr (List Expense) :=
  if !(isValidOid tid) then .error ⟨400, "Invalid trip ID"⟩ else
  match findTrip db tid with
  | none => .error ⟨404, "Trip not found"⟩
  | some t =>
    if deniesAccess t uid then .error ⟨403, "Access denied"⟩
    else .ok t.expenses

/-- The `update_one` of `update_expense` (positional wholesale `$set`). -/
def replaceExpense (eid : String) (e : Expense) (t : Trip) : Trip :=
  if t.expenses.any (fun x => x.id == eid) then
    { t with expenses := setFirst (fun x => x.id == eid) (fun _ => e) t.expenses }
  else t

/-- `PUT /expenses/{trip_id}/{expense_id}` (`update_expense`). -/
def update_expense (db : DB) (tid eid : String) (e : Expense)
    (uid : String) : DB × Except HErr Expense :=
  if !(isValidOid tid && isValidOid eid) then (db, .error ⟨400, "Invalid ID"⟩) else
  match findTrip db tid with
  | none => (db, .error ⟨404, "Trip not found"⟩)
  | some t =>
    if deniesAccess t uid then (db, .error ⟨403, "Access denied"⟩)
    else
      (modifyTrip db tid (replaceExpense eid { e with id := eid }),
       .ok { e with id := eid })

/-- `DELETE /expenses/{trip_id}/{expense_id}` (`delete_expense`). -/
def delete_expense (db : DB) (tid eid uid : String) :
    DB × Except HErr String :=
  if !(isValidOid tid && isValidOid eid) then (db, .error ⟨400, "Invalid ID"⟩) else
  match findTrip db tid with
  | none => (db, .error ⟨404, "Trip not found"⟩)
  | some t =>
    if deniesAccess t uid then (db, .error ⟨403, "Access denied"⟩)
    else
      (modifyTrip db tid (pullExpense eid), .ok "Expense deleted successfully")

/-- The summary payload of `GET /expenses/{trip_id}/summary`. -/
structure ExpenseSummary where
  budget : ℚ
  total_spent : ℚ
  remaining : ℚ
  category_breakdown : List (String × ℚ)
deriving Repr, DecidableEq

/-- One step of the category-breakdown loop: add `a` to the running total of
category `c`, inserting the key on first occurrence (Python dict insertion). -/
def addToCategory : List (String × ℚ) → String → ℚ → List (String × ℚ)
  | [], c, a => [(c, a)]
  | (k, v) :: rest, c, a =>
    if k == c then (k, v + a) :: rest else (k, v) :: addToCategory rest c a

/-- The `category_totals` dict built by `get_expense_summary`. -/
def categoryTotals (es : List Expense) : List (String × ℚ) :=
  es.foldl (fun m e => addToCategory m e.category e.amount) []

/-- Association-list lookup, the dict read used to state summary facts. -/
def lookupCat : List (String × ℚ) → String → Option ℚ
  | [], _ => none
  | (k, v) :: rest, c => if k == c then some v else lookupCat rest c

/-- `GET /expenses/{trip_id}/summary` (`get_expense_summary`). -/
def get_expense_summary (db : DB) (tid uid : String) :
    Except HErr ExpenseSummary :=
  if !(isValidOid tid) then .error ⟨400, "Invalid trip ID"⟩ else
  match findTrip db tid with
  | none => .error ⟨404, "Trip not found"⟩
  | some t =>
    if deniesAccess t uid then .error ⟨403, "Access denied"⟩
    else
      let total_spent := (t.expenses.map (fun e => e.amount)).sum
      .ok ⟨t.budget, total_spent, t.budget - total_spent, categoryTotals t.expenses⟩

/-- `POST /packing/{trip_id}` (`create_packing_item`). -/
def create_packing_item (db : DB) (tid : String) (it : PackingItem)
    (fresh : String) (uid : String) : DB × Except HErr PackingItem :=
  if !(isValidOid tid) then (db, .error ⟨400, "Invalid trip ID"⟩) else
  match findTrip db tid with
  | none => (db, .error ⟨404, "Trip not found"⟩)
  | some t =>
    if deniesAccess t uid then (db, .error ⟨403, "Access denied"⟩)
    else
      (modifyTrip db tid (pushPackingItem { it with id := fresh }),
       .ok { it with id := fresh })

/-- The `update_one` of `update_packing_item` (positional wholesale `$set`). -/
def replacePackingItem (pid : String) (it : PackingItem) (t : Trip) : Trip :=
  if t.packing_items.any (fun x => x.id == pid) then
    { t with packing_items := setFirst (fun x => x.id == pid) (fun _ => it) t.packing_items }
  else t

/-- `PUT /packing/{trip_id}/{item_id}` (`update_packing_item`). -/
def update_packing_item (db : DB) (tid pid : String) (it : PackingItem)
    (uid : String) : DB × Except HErr PackingItem :=
  if !(isValidOid tid && isValidOid pid) then (db, .error ⟨400, "Invalid ID"⟩) else
  match findTrip db tid with
  | none => (db, .error ⟨404, "Trip not found"⟩)
  | some t =>
    if deniesAccess t uid then (db, .error ⟨403, "Access denied"⟩)
    else
      (modifyTrip db tid (replacePackingItem pid { it with id := pid }),
       .ok { it with id := pid })

/-- `DELETE /packing/{trip_id}/{item_id}` (`delete_packing_item`): `$pull`
returning success whether or not the identifier was present. -/
def delete_packing_item (db : DB) (tid pid uid : String) :
    DB × Except HErr String :=
  if !(isValidOid tid && isValidOid pid) then (db, .error ⟨400, "Invalid ID"⟩) else
  match findTrip db tid with
  | none => (db, .error ⟨404, "Trip not found"⟩)
  | some t =>
    if deniesAccess t uid then (db, .error ⟨403, "Access denied"⟩)
    else
      (modifyTrip db tid (pullPackingItem pid), .ok "Packing item deleted successfully")

/-- `PUT /packing/{trip_id}/{item_id}/toggle` (`toggle_packing_item`): finds
the item in the loaded trip, flips its `packed` flag via a positional `$set`,
404 when absent. -/
def toggle_packing_item (db : DB) (tid pid uid : String) :
    DB × Except HErr Bool :=
  if !(isValidOid tid && isValidOid pid) then (db, .error ⟨400, "Invalid ID"⟩) else
  match findTrip db tid with
  | none => (db, .error ⟨404, "Trip not found"⟩)
  | some t =>
    if deniesAccess t uid then (db, .error ⟨403, "Access denied"⟩)
    else
      match t.packing_items.find? (fun it => it.id == pid) with
      | some it =>
        (modifyTrip db tid (setPacked pid (!it.packed)), .ok (!it.packed))
      | none => (db, .error ⟨404, "Packing item not found"⟩)

/-- A 24-hex owner id. -/
def oidA : String := "aaaaaaaaaaaaaaaaaaaaaaaa"

/-- A 24-hex collaborator id. -/
def oidB : String := "bbbbbbbbbbbbbbbbbbbbbbbb"

/-- A 24-hex id of a user with no relation to the trip. -/
def oidC : String := "cccccccccccccccccccccccc"

/-- A 24-hex trip id. -/
def oidT : String := "0123456789abcdef01234567"

/-- A 24-hex sub-resource id absent from every fixture collection. -/
def oidX : String := "dddddddddddddddddddddddd"

/-- A fresh server-generated 24-hex id. -/
def oidF : String := "ffffffffffffffffffffffff"

/-- Fixture activity. -/
def exAct : Activity :=
  { id := "a1a1a1a1a1a1a1a1a1a1a1a1", title := "Beach", time := "10:00",
    location := "Baga", activity_type := "activity", notes := "", cost := 0,
    day := 1, order := 0 }

/-- Fixture expenses matching the spec's summary example. -/
def exExp1 : Expense :=
  { id := "e1e1e1e1e1e1e1e1e1e1e1e1", title := "Hotel", amount := 100,
    category := "food", date := 0, notes := "" }

/-- Second fixture expense. -/
def exExp2 : Expense :=
  { id := "e2e2e2e2e2e2e2e2e2e2e2e2", title := "Lunch", amount := 50,
    category := "food", date := 0, notes := "" }

/-- Third fixture expense. -/
def exExp3 : Expense :=
  { id := "e3e3e3e3e3e3e3e3e3e3e3e3", title := "Taxi", amount := 30,
    category := "transport", date := 0, notes := "" }

/-- Fixture packing item. -/
def exItem : PackingItem :=
  { id := "010101010101010101010101", name := "Socks",
    category := "clothes", packed := false, notes := "" }

/-- Fixture trip: owned by `oidA`, with `oidB` as sole collaborator. -/
def exTrip : Trip :=
  { id := oidT, title := "Goa Trip", destination := "Goa", start_date := 0,
    end_date := 10, budget := 500, owner_id := oidA, collaborators := [oidB],
    activities := [exAct], expenses := [exExp1, exExp2, exExp3],
    packing_items := [exItem], notes := "", created_at := 0, updated_at := 0 }

/-- Fixture owner account. -/
def exUserA : User :=
  { id := oidA, email := "owner@example.com", username := "owner",
    hashed_password := "h", created_at := 0 }

/-- Fixture collaborator account. -/
def exUserB : User :=
  { id := oidB, email := "collab@example.com", username := "collab",
    hashed_password := "h", created_at := 0 }

/-- Fixture store. -/
def exDB : DB := { trips := [exTrip], users := [exUserA, exUserB] }

/-- A valid 24-hex id matching no stored trip. -/
def oidZ : String := "999999999999999999999999"

/-- `True` iff the handler outcome is an HTTP 403 response. -/
def denies403 {α : Type} (r : Except HErr α) : Bool :=
  match r with
  | .error err => err.status == 403
  | .ok _ => false

/-- Fixture partial update payload. -/
def exUpd : TripUpdate :=
  { title := none, destination := none, start_date := none, end_date := none,
    budget := none, notes := some "updated" }

/-- Sum of the amounts of the expenses whose category is `c`. -/
def sumCat (es : List Expense) (c : String) : ℚ :=
  ((es.filter (fun e => e.category == c)).map (fun e => e.amount)).sum

/-- The scalar fields of a trip document (everything except the three
embedded collections), used to state frame properties. -/
def tripScalars (t : Trip) :
    String × String × String × Int × Int × ℚ × String × List String × String × Int × Int :=
  (t.id, t.title, t.destination, t.start_date, t.end_date, t.budget,
   t.owner_id, t.collaborators, t.notes, t.created_at, t.updated_at)

/-- The fields of an activity other than its display order. -/
def actFrame (a : Activity) :
    String × String × String × String × String × String × ℚ × Int :=
  (a.id, a.title, a.time, a.location, a.activity_type, a.notes, a.cost, a.day)

/-- The display order of the (first) activity with identifier `aid`. -/
def orderOf (acts : List Activity) (aid : String) : Option Int :=
  (acts.find? (fun x => x.id == aid)).map (fun x => x.order)

/-- `models.TripCreate`: the creation payload. -/
structure TripCreate where
  title : String
  destination : String
  start_date : Int
  end_date : Int
  budget : ℚ
deriving Repr, DecidableEq

/-- `POST /trips/` (`create_trip`): inserts a new trip owned by the caller
with empty collaborator list and empty collections. -/
def create_trip (db : DB) (c : TripCreate) (fresh : String) (now : Int)
    (uid : String) : DB × Trip :=
  let t : Trip :=
    { id := fresh, title := c.title, destination := c.destination,
      start_date := c.start_date, end_date := c.end_date, budget := c.budget,
      owner_id := uid, collaborators := [], activities := [], expenses := [],
      packing_items := [], notes := "", created_at := now, updated_at := now }
  ({ db with trips := db.trips ++ [t] }, t)

/-- The public operations quantified over by the ownership invariant: trip
update, collaborator addition, and joinTrip, each by an arbitrary caller. -/
inductive TripOp where
  | upd (u : TripUpdate) (now : Int) (uid : String)
  | addC (email : String) (uid : String)
  | join (uid : String)

/-- The store after one operation against trip `tid` (the handler's state
component; an error response leaves the store as it was). -/
def applyOp (tid : String) (db : DB) : TripOp → DB
  | .upd u now uid => (update_trip db tid u now uid).1
  | .addC email uid => (add_collaborator db tid email uid).1
  | .join uid => (join_trip db tid uid).1

/-- The store after a sequence of operations against trip `tid`. -/
def runOps (tid : String) (db : DB) (ops : List TripOp) : DB :=
  ops.foldl (applyOp tid) db

theorem setFirst_map {α β : Type} (g : α → β) (p : α → Bool) (f : α → α)
    (h : ∀ a, g (f a) = g a) :
    ∀ l : List α, (setFirst p f l).map g = l.map g := by
  intro l
  induction l with
  | nil => rfl
  | cons x xs ih =>
    by_cases hp : p x = true
    · simp [setFirst, hp, h x]
    · simp [setFirst, hp, ih]

theorem find?_setFirst_self {α : Type} (p : α → Bool) (f : α → α)
    (h : ∀ a, p (f a) = p a) :
    ∀ l : List α, (setFirst p f l).find? p = (l.find? p).map f := by
  intro l
  induction l with
  | nil => rfl
  | cons x xs ih =>
    by_cases hp : p x = true
    · simp [setFirst, hp, List.find?, h x]
    · simp only [Bool.not_eq_true] at hp
      simp [setFirst, hp, List.find?, ih]

theorem find?_setFirst_ne {α : Type} (p q : α → Bool) (f : α → α)
    (hpf : ∀ a, p (f a) = p a) (hpq : ∀ a, p a = true → q a = false) :
    ∀ l : List α, (setFirst q f l).find? p = l.find? p := by
  intro l
  induction l with
  | nil => rfl
  | cons x xs ih =>
    by_cases hq : q x = true
    · have hpx : p x = false := by
        by_cases hx : p x = true
        · exact absurd hq (by simp [hpq x hx])
        · simpa using hx
      simp [setFirst, hq, List.find?, hpf x, hpx]
    · simp only [Bool.not_eq_true] at hq
      by_cases hp : p x = true
      · simp [setFirst, hq, List.find?, hp]
      · simp only [Bool.not_eq_true] at hp
        simp [setFirst, hq, List.find?, hp, ih]

theorem setFirst_eq_self {α : Type} (p : α → Bool) (f : α → α) :
    ∀ l : List α, (∀ a ∈ l, p a = true → f a = a) → setFirst p f l = l := by
  intro l
  induction l with
  | nil => intro; rfl
  | cons x xs ih =>
    intro h
    by_cases hp : p x = true
    · simp [setFirst, hp, h x (by simp) hp]
    · simp only [Bool.not_eq_true] at hp
      simp [setFirst, hp, ih fun a ha => h a (by simp [ha])]

theorem filter_self_of {α : Type} (p : α → Bool) :
    ∀ l : List α, (∀ a ∈ l, p a = true) → l.filter p = l := by
  intro l
  induction l with
  | nil => intro; rfl
  | cons x xs ih =>
    intro h
    simp [List.filter, h x (by simp), ih fun a ha => h a (by simp [ha])]

theorem findTrip_modifyTrip_self (db : DB) (tid : String) (f : Trip → Trip)
    (h : ∀ t, (f t).id = t.id) :
    findTrip (modifyTrip db tid f) tid = (findTrip db tid).map f := by
  unfold findTrip modifyTrip
  exact find?_setFirst_self _ f (fun t => by simp [h t]) db.trips

theorem users_modifyTrip (db : DB) (tid : String) (f : Trip → Trip) :
    (modifyTrip db tid f).users = db.users := rfl

/-- The handlers' inline denial test is the negation of the spec predicate. -/
theorem deniesAccess_eq_not_canAccess (t : Trip) (uid : String) :
    deniesAccess t uid = !canAccess t uid := by
  simp [deniesAccess, canAccess, Bool.not_or, bne]

theorem replaceActivity_id (aid : String) (a : Activity) :
    ∀ t : Trip, (replaceActivity aid a t).id = t.id := by
  intro t; unfold replaceActivity; split <;> rfl

theorem replaceExpense_id (eid : String) (e : Expense) :
    ∀ t : Trip, (replaceExpense eid e t).id = t.id := by
  intro t; unfold replaceExpense; split <;> rfl

theorem replacePackingItem_id (pid : String) (it : PackingItem) :
    ∀ t : Trip, (replacePackingItem pid it t).id = t.id := by
  intro t; unfold replacePackingItem; split <;> rfl

theorem findUser_of_users_eq (db1 db2 : DB) (email : String)
    (h : db1.users = db2.users) : findUser db1 email = findUser db2 email := by
  unfold findUser; rw [h]

theorem get_trip_run (db : DB) (tid uid : String) (t : Trip)
    (hv : isValidOid tid = true) (ht : findTrip db tid = some t)
    (hd : deniesAccess t uid = false) :
    get_trip db tid uid = .ok t := by
  simp [get_trip, hv, ht, hd]

theorem get_trip_activities_run (db : DB) (tid uid : String) (t : Trip)
    (hv : isValidOid tid = true) (ht : findTrip db tid = some t)
    (hd : deniesAccess t uid = false) :
    get_trip_activities db tid uid = .ok t.activities := by
  simp [get_trip_activities, hv, ht, hd]

theorem get_trip_expenses_run (db : DB) (tid uid : String) (t : Trip)
    (hv : isValidOid tid = true) (ht : findTrip db tid = some t)
    (hd : deniesAccess t uid = false) :
    get_trip_expenses db tid uid = .ok t.expenses := by
  simp [get_trip_expenses, hv, ht, hd]

theorem get_expense_summary_run (db : DB) (tid uid : String) (t : Trip)
    (hv : isValidOid tid = true) (ht : findTrip db tid = some t)
    (hd : deniesAccess t uid = false) :
    get_expense_summary db tid uid =
      .ok ⟨t.budget, (t.expenses.map (fun e => e.amount)).sum,
           t.budget - (t.expenses.map (fun e => e.amount)).sum,
           categoryTotals t.expenses⟩ := by
  simp [get_expense_summary, hv, ht, hd]

theorem create_activity_run (db : DB) (tid fresh uid : String) (a : Activity)
    (t : Trip) (hv : isValidOid tid = true) (ht : findTrip db tid = some t)
    (hd : deniesAccess t uid = false) :
    create_activity db tid a fresh uid =
      (modifyTrip db tid (pushActivity { a with id := fresh }), .ok { a with id := fresh }) := by
  simp [create_activity, hv, ht, hd]

theorem update_activity_run (db : DB) (tid aid uid : String) (a : Activity)
    (t : Trip) (hv : isValidOid tid = true) (hs : isValidOid aid = true)
    (ht : findTrip db tid = some t) (hd : deniesAccess t uid = false) :
    update_activity db tid aid a uid =
      (modifyTrip db tid (replaceActivity aid { a with id := aid }), .ok { a with id := aid }) := by
  simp [update_activity, hv, hs, ht, hd]

theorem delete_activity_run (db : DB) (tid aid uid : String) (t : Trip)
    (hv : isValidOid tid = true) (hs : isValidOid aid = true)
    (ht : findTrip db tid = some t) (hd : deniesAccess t uid = false) :
    delete_activity db tid aid uid =
      (modifyTrip db tid (pullActivity aid), .ok "Activity deleted successfully") := by
  simp [delete_activity, hv, hs, ht, hd]

theorem reorder_activities_run (db : DB) (tid uid : String)
    (orders : List (String × Int)) (t : Trip)
    (hv : isValidOid tid = true) (ht : findTrip db tid = some t)
    (hd : deniesAccess t uid = false) :
    reorder_activities db tid orders uid =
      (modifyTrip db tid (setOrders orders), .ok "Activities reordered successfully") := by
  simp [reorder_activities, hv, ht, hd]

theorem create_expense_run (db : DB) (tid fresh uid : String) (e : Expense)
    (t : Trip) (hv : isValidOid tid = true) (ht : findTrip db tid = some t)
    (hd : deniesAccess t uid = false) :
    create_expense db tid e fresh uid =
      (modifyTrip db tid (pushExpense { e with id := fresh }), .ok { e with id := fresh }) := by
  simp [create_expense, hv, ht, hd]

theorem update_expense_run (db : DB) (tid eid uid : String) (e : Expense)
    (t : Trip) (hv : isValidOid tid = true) (hs : isValidOid eid = true)
    (ht : findTrip db tid = some t) (hd : deniesAccess t uid = false) :
    update_expense db tid eid e uid =
      (modifyTrip db tid (replaceExpense eid { e with id := eid }), .ok { e with id := eid }) := by
  simp [update_expense, hv, hs, ht, hd]

theorem delete_expense_run (db : DB) (tid eid uid : String) (t : Trip)
    (hv : isValidOid tid = true) (hs : isValidOid eid = true)
    (ht : findTrip db tid = some t) (hd : deniesAccess t uid = false) :
    delete_expense db tid eid uid =
      (modifyTrip db tid (pullExpense eid), .ok "Expense deleted successfully") := by
  simp [delete_expense, hv, hs, ht, hd]

theorem create_packing_item_run (db : DB) (tid fresh uid : String)
    (it : PackingItem) (t : Trip)
    (hv : isValidOid tid = true) (ht : findTrip db tid = some t)
    (hd : deniesAccess t uid = false) :
    create_packing_item db tid it fresh uid =
      (modifyTrip db tid (pushPackingItem { it with id := fresh }), .ok { it with id := fresh }) := by
  simp [create_packing_item, hv, ht, hd]

theorem update_packing_item_run (db : DB) (tid pid uid : String)
    (it : PackingItem) (t : Trip)
    (hv : isValidOid tid = true) (hs : isValidOid pid = true)
    (ht : findTrip db tid = some t) (hd : deniesAccess t uid = false) :
    update_packing_item db tid pid it uid =
      (modifyTrip db tid (replacePackingItem pid { it with id := pid }), .ok { it with id := pid }) := by
  simp [update_packing_item, hv, hs, ht, hd]

theorem delete_packing_item_run (db : DB) (tid pid uid : String) (t : Trip)
    (hv : isValidOid tid = true) (hs : isValidOid pid = true)
    (ht : findTrip db tid = some t) (hd : deniesAccess t uid = false) :
    delete_packing_item db tid pid uid =
      (modifyTrip db tid (pullPackingItem pid), .ok "Packing item deleted successfully") := by
  simp [delete_packing_item, hv, hs, ht, hd]

theorem toggle_packing_item_run_found (db : DB) (tid pid uid : String)
    (t : Trip) (it : PackingItem)
    (hv : isValidOid tid = true) (hs : isValidOid pid = true)
    (ht : findTrip db tid = some t) (hd : deniesAccess t uid = false)
    (hfind : t.packing_items.find? (fun x => x.id == pid) = some it) :
    toggle_packing_item db tid pid uid =
      (modifyTrip db tid (setPacked pid (!it.packed)), .ok (!it.packed)) := by
  simp [toggle_packing_item, hv, hs, ht, hd, hfind]

theorem toggle_packing_item_run_absent (db : DB) (tid pid uid : String)
    (t : Trip)
    (hv : isValidOid tid = true) (hs : isValidOid pid = true)
    (ht : findTrip db tid = some t) (hd : deniesAccess t uid = false)
    (hfind : t.packing_items.find? (fun x => x.id == pid) = none) :
    toggle_packing_item db tid pid uid = (db, .error ⟨404, "Packing item not found"⟩) := by
  simp [toggle_packing_item, hv, hs, ht, hd, hfind]

theorem update_trip_run_empty (db : DB) (tid uid : String) (u : TripUpdate)
    (now : Int) (t : Trip)
    (hv : isValidOid tid = true) (ht : findTrip db tid = some t)
    (hown : t.owner_id = uid) (hu : u.isEmptyUpd = true) :
    update_trip db tid u now uid = (db, .ok t) := by
  simp [update_trip, hv, ht, hown, hu]

theorem update_trip_run_set (db : DB) (tid uid : String) (u : TripUpdate)
    (now : Int) (t : Trip)
    (hv : isValidOid tid = true) (ht : findTrip db tid = some t)
    (hown : t.owner_id = uid) (hu : u.isEmptyUpd = false) :
    update_trip db tid u now uid =
      (modifyTrip db tid (applyTripUpdate u now), .ok (applyTripUpdate u now t)) := by
  have ht2 : findTrip (modifyTrip db tid (applyTripUpdate u now)) tid =
      some (applyTripUpdate u now t) := by
    rw [findTrip_modifyTrip_self db tid (applyTripUpdate u now) (fun t2 => rfl), ht]; rfl
  simp [update_trip, hv, ht, hown, hu, ht2]

theorem delete_trip_run (db : DB) (tid uid : String) (t : Trip)
    (hv : isValidOid tid = true) (ht : findTrip db tid = some t)
    (hown : t.owner_id = uid) :
    delete_trip db tid uid =
      ({ db with trips := removeFirst (fun t2 => t2.id == tid) db.trips },
       .ok "Trip deleted successfully") := by
  simp [delete_trip, hv, ht, hown]

theorem add_collaborator_run_mem (db : DB) (tid email uid : String) (t : Trip)
    (v : User)
    (hv : isValidOid tid = true) (ht : findTrip db tid = some t)
    (hown : t.owner_id = uid) (hu : findUser db email = some v)
    (hmem : v.id ∈ t.collaborators) :
    add_collaborator db tid email uid = (db, .ok "Collaborator added successfully") := by
  simp [add_collaborator, hv, ht, hown, hu, hmem]

theorem add_collaborator_run_new (db : DB) (tid email uid : String) (t : Trip)
    (v : User)
    (hv : isValidOid tid = true) (ht : findTrip db tid = some t)
    (hown : t.owner_id = uid) (hu : findUser db email = some v)
    (hmem : v.id ∉ t.collaborators) :
    add_collaborator db tid email uid =
      (modifyTrip db tid (pushCollaborator v.id), .ok "Collaborator added successfully") := by
  simp [add_collaborator, hv, ht, hown, hu, hmem]

theorem join_trip_run_owner (db : DB) (tid uid : String) (t : Trip)
    (hv : isValidOid tid = true) (ht : findTrip db tid = some t)
    (hown : t.owner_id = uid) :
    join_trip db tid uid =
      (db, .error ⟨400, "You are already the owner of this trip"⟩) := by
  simp [join_trip, hv, ht, hown]

theorem join_trip_run_collab (db : DB) (tid uid : String) (t : Trip)
    (hv : isValidOid tid = true) (ht : findTrip db tid = some t)
    (hne : t.owner_id ≠ uid) (hmem : uid ∈ t.collaborators) :
    join_trip db tid uid =
      (db, .error ⟨400, "You are already a collaborator of this trip"⟩) := by
  simp [join_trip, hv, ht, hne, hmem]

theorem join_trip_run_new (db : DB) (tid uid : String) (t : Trip)
    (hv : isValidOid tid = true) (ht : findTrip db tid = some t)
    (hne : t.owner_id ≠ uid) (hmem : uid ∉ t.collaborators) :
    join_trip db tid uid =
      (modifyTrip db tid (pushCollaborator uid), .ok (pushCollaborator uid t)) := by
  have ht2 : findTrip (modifyTrip db tid (pushCollaborator uid)) tid =
      some (pushCollaborator uid t) := by
    rw [findTrip_modifyTrip_self db tid (pushCollaborator uid) (fun t2 => rfl), ht]; rfl
  simp [join_trip, hv, ht, hne, hmem, ht2]

/-- C3, counterexample: updating an expense whose well-formed identifier is
absent from the trip's collection does NOT fail with "not found": it returns
success carrying the provided value and leaves the store unchanged. -/
theorem C3_update_absent_counterexample :
    (update_expense exDB oidT oidX exExp1 oidB).2 = .ok { exExp1 with id := oidX } ∧
    (update_expense exDB oidT oidX exExp1 oidB).1 = exDB := ⟨rfl, rfl⟩

/-- C3, amended: for an accessible trip, update-by-identifier on each of the
three embedded collections always returns success carrying the provided value
(identifier forced to the path parameter); when the identifier is absent at
write time the trip is left unchanged (no "not found" error is raised), and
when it is present the matched element is replaced wholesale. -/
theorem C3_update_by_id (db : DB) (tid sid uid : String) (t : Trip)
    (a : Activity) (e : Expense) (it : PackingItem)
    (hv : isValidOid tid = true) (hs : isValidOid sid = true)
    (ht : findTrip db tid = some t) (hacc : canAccess t uid = true) :
    ((update_expense db tid sid e uid).2 = .ok { e with id := sid } ∧
      (t.expenses.any (fun x => x.id == sid) = false →
        findTrip (update_expense db tid sid e uid).1 tid = some t) ∧
      (t.expenses.any (fun x => x.id == sid) = true →
        (findTrip (update_expense db tid sid e uid).1 tid).map (fun t2 => t2.expenses) =
          some (setFirst (fun x => x.id == sid) (fun _ => { e with id := sid }) t.expenses))) ∧
    ((update_activity db tid sid a uid).2 = .ok { a with id := sid } ∧
      (t.activities.any (fun x => x.id == sid) = false →
        findTrip (update_activity db tid sid a uid).1 tid = some t) ∧
      (t.activities.any (fun x => x.id == sid) = true →
        (findTrip (update_activity db tid sid a uid).1 tid).map (fun t2 => t2.activities) =
          some (setFirst (fun x => x.id == sid) (fun _ => { a with id := sid }) t.activities))) ∧
    ((update_packing_item db tid sid it uid).2 = .ok { it with id := sid } ∧
      (t.packing_items.any (fun x => x.id == sid) = false →
        findTrip (update_packing_item db tid sid it uid).1 tid = some t) ∧
      (t.packing_items.any (fun x => x.id == sid) = true →
        (findTrip (update_packing_item db tid sid it uid).1 tid).map (fun t2 => t2.packing_items) =
          some (setFirst (fun x => x.id == sid) (fun _ => { it with id := sid }) t.packing_items))) := by
  have hd : deniesAccess t uid = false := by
    rw [deniesAccess_eq_not_canAccess, hacc]; rfl
  refine ⟨⟨?_, ?_, ?_⟩, ⟨?_, ?_, ?_⟩, ⟨?_, ?_, ?_⟩⟩
  · rw [update_expense_run db tid sid uid e t hv hs ht hd]
  · intro habs
    simp only [update_expense_run db tid sid uid e t hv hs ht hd]
    rw [findTrip_modifyTrip_self db tid _ (replaceExpense_id sid _), ht]
    simp [replaceExpense, habs]
  · intro hmem
    simp only [update_expense_run db tid sid uid e t hv hs ht hd]
    rw [findTrip_modifyTrip_self db tid _ (replaceExpense_id sid _), ht]
    simp [replaceExpense, hmem]
  · rw [update_activity_run db tid sid uid a t hv hs ht hd]
  · intro habs
    simp only [update_activity_run db tid sid uid a t hv hs ht hd]
    rw [findTrip_modifyTrip_self db tid _ (replaceActivity_id sid _), ht]
    simp [replaceActivity, habs]
  · intro hmem
    simp only [update_activity_run db tid sid uid a t hv hs ht hd]
    rw [findTrip_modifyTrip_self db tid _ (replaceActivity_id sid _), ht]
    simp [replaceActivity, hmem]
  · rw [update_packing_item_run db tid sid uid it t hv hs ht hd]
  · intro habs
    simp only [update_packing_item_run db tid sid uid it t hv hs ht hd]
    rw [findTrip_modifyTrip_self db tid _ (replacePackingItem_id sid _), ht]
    simp [replacePackingItem, habs]
  · intro hmem
    simp only [update_packing_item_run db tid sid uid it t hv hs ht hd]
    rw [findTrip_modifyTrip_self db tid _ (replacePackingItem_id sid _), ht]
    simp [replacePackingItem, hmem]

/-- Witness for the amended C3 at a concrete store: collaborator `oidB`
updates the absent expense id `oidX` of the fixture trip. -/
theorem C3_update_by_id_witness :
    isValidOid oidT = true ∧ isValidOid oidX = true ∧
    canAccess exTrip oidB = true ∧
    (update_expense exDB oidT oidX exExp1 oidB).2 = .ok { exExp1 with id := oidX } ∧
    findTrip (update_expense exDB oidT oidX exExp1 oidB).1 oidT = some exTrip :=
  ⟨rfl, rfl, rfl,
    (C3_update_by_id exDB oidT oidX oidB exTrip exAct exExp1 exItem rfl rfl rfl rfl).1.1,
    (C3_update_by_id exDB oidT oidX oidB exTrip exAct exExp1 exItem rfl rfl rfl rfl).1.2.1 rfl⟩

/-- C4: deleting a packing item whose well-formed identifier is absent
returns success and leaves the trip unchanged, while deleting a trip whose
identifier matches no stored trip fails with 404 "Trip not found". -/
theorem C4_delete_semantics (db : DB) (tid pid tid2 uid : String) (t : Trip)
    (hv : isValidOid tid = true) (hp : isValidOid pid = true)
    (ht : findTrip db tid = some t) (hacc : canAccess t uid = true)
    (habs : t.packing_items.any (fun x => x.id == pid) = false)
    (hv2 : isValidOid tid2 = true) (ht2 : findTrip db tid2 = none) :
    (delete_packing_item db tid pid uid).2 = .ok "Packing item deleted successfully" ∧
    findTrip (delete_packing_item db tid pid uid).1 tid = some t ∧
    delete_trip db tid2 uid = (db, .error ⟨404, "Trip not found"⟩) := by
  have hd : deniesAccess t uid = false := by
    rw [deniesAccess_eq_not_canAccess, hacc]; rfl
  refine ⟨?_, ?_, ?_⟩
  · rw [delete_packing_item_run db tid pid uid t hv hp ht hd]
  · simp only [delete_packing_item_run db tid pid uid t hv hp ht hd]
    rw [findTrip_modifyTrip_self db tid (pullPackingItem pid) (fun t2 => rfl), ht]
    have hall : t.packing_items.filter (fun x => !(x.id == pid)) = t.packing_items := by
      apply filter_self_of
      rw [List.any_eq_false] at habs
      intro x hx
      simpa using habs x hx
    simp only [Option.map_some']
    unfold pullPackingItem
    rw [hall]
  · simp [delete_trip, hv2, ht2]

/-- Witness for C4: the fixture collaborator deletes absent item `oidX`, and
deletes the unknown trip `oidZ`. -/
theorem C4_delete_semantics_witness :
    (delete_packing_item exDB oidT oidX oidB).2 = .ok "Packing item deleted successfully" ∧
    findTrip (delete_packing_item exDB oidT oidX oidB).1 oidT = some exTrip ∧
    delete_trip exDB oidZ oidB = (exDB, .error ⟨404, "Trip not found"⟩) :=
  C4_delete_semantics exDB oidT oidX oidZ oidB exTrip rfl rfl rfl rfl rfl rfl rfl

/-- C7: adding an already-present collaborator is a successful no-op, and a
second `add_collaborator` with the same email leaves the store exactly where
the first call left it (idempotence, set semantics). -/
theorem C7_add_collaborator_idem (db : DB) (tid email uid : String)
    (t : Trip) (v : User)
    (hv : isValidOid tid = true) (ht : findTrip db tid = some t)
    (hown : t.owner_id = uid) (hu : findUser db email = some v) :
    (v.id ∈ t.collaborators →
      add_collaborator db tid email uid = (db, .ok "Collaborator added successfully")) ∧
    (add_collaborator (add_collaborator db tid email uid).1 tid email uid).1 =
      (add_collaborator db tid email uid).1 := by
  constructor
  · intro hmem
    exact add_collaborator_run_mem db tid email uid t v hv ht hown hu hmem
  · by_cases hmem : v.id ∈ t.collaborators
    · have h1 : (add_collaborator db tid email uid).1 = db := by
        rw [add_collaborator_run_mem db tid email uid t v hv ht hown hu hmem]
      rw [h1, h1]
    · have h1 : (add_collaborator db tid email uid).1 =
          modifyTrip db tid (pushCollaborator v.id) := by
        rw [add_collaborator_run_new db tid email uid t v hv ht hown hu hmem]
      have ht1 : findTrip (modifyTrip db tid (pushCollaborator v.id)) tid =
          some (pushCollaborator v.id t) := by
        rw [findTrip_modifyTrip_self db tid (pushCollaborator v.id) (fun t2 => rfl), ht]; rfl
      have hu1 : findUser (modifyTrip db tid (pushCollaborator v.id)) email = some v := by
        rw [findUser_of_users_eq (modifyTrip db tid (pushCollaborator v.id)) db email rfl, hu]
      have hown1 : (pushCollaborator v.id t).owner_id = uid := hown
      have hmem1 : v.id ∈ (pushCollaborator v.id t).collaborators := by
        simp [pushCollaborator]
      rw [h1]
      rw [add_collaborator_run_mem (modifyTrip db tid (pushCollaborator v.id))
        tid email uid (pushCollaborator v.id t) v hv ht1 hown1 hu1 hmem1]

/-- Witness for C7 at the fixture store: `oidB` is already a collaborator, so
adding them again is a no-op, and two additions equal one. -/
theorem C7_add_collaborator_idem_witness :
    add_collaborator exDB oidT "collab@example.com" oidA =
      (exDB, .ok "Collaborator added successfully") ∧
    (add_collaborator (add_collaborator exDB oidT "collab@example.com" oidA).1
        oidT "collab@example.com" oidA).1 =
      (add_collaborator exDB oidT "collab@example.com" oidA).1 :=
  ⟨(C7_add_collaborator_idem exDB oidT "collab@example.com" oidA exTrip exUserB
      rfl rfl rfl rfl).1 (by simp [exTrip, oidB, exUserB]),
   (C7_add_collaborator_idem exDB oidT "collab@example.com" oidA exTrip exUserB
      rfl rfl rfl rfl).2⟩

/-- C8: `join_trip` rejects the owner with the "already owner" error and an
existing collaborator with the "already collaborator" error, leaving the
store unchanged in both cases; otherwise it appends exactly the caller to the
trip's collaborators and returns the updated trip. -/
theorem C8_join_trip_cases (db : DB) (tid uid : String) (t : Trip)
    (hv : isValidOid tid = true) (ht : findTrip db tid = some t) :
    (t.owner_id = uid →
      join_trip db tid uid = (db, .error ⟨400, "You are already the owner of this trip"⟩)) ∧
    (t.owner_id ≠ uid → uid ∈ t.collaborators →
      join_trip db tid uid = (db, .error ⟨400, "You are already a collaborator of this trip"⟩)) ∧
    (t.owner_id ≠ uid → uid ∉ t.collaborators →
      join_trip db tid uid =
        (modifyTrip db tid (pushCollaborator uid), .ok (pushCollaborator uid t)) ∧
      (pushCollaborator uid t).collaborators = t.collaborators ++ [uid]) := by
  refine ⟨?_, ?_, ?_⟩
  · intro hown
    exact join_trip_run_owner db tid uid t hv ht hown
  · intro hne hmem
    exact join_trip_run_collab db tid uid t hv ht hne hmem
  · intro hne hmem
    exact ⟨join_trip_run_new db tid uid t hv ht hne hmem, rfl⟩

/-- Witness for C8: joining the fixture trip as its owner, as its
collaborator, and as a stranger. -/
theorem C8_join_trip_cases_witness :
    join_trip exDB oidT oidA =
      (exDB, .error ⟨400, "You are already the owner of this trip"⟩) ∧
    join_trip exDB oidT oidB =
      (exDB, .error ⟨400, "You are already a collaborator of this trip"⟩) ∧
    (join_trip exDB oidT oidC).2 = .ok (pushCollaborator oidC exTrip) :=
  ⟨(C8_join_trip_cases exDB oidT oidA exTrip rfl rfl).1 rfl,
   (C8_join_trip_cases exDB oidT oidB exTrip rfl rfl).2.1 (by decide) (by simp [exTrip, oidB]),
   by rw [((C8_join_trip_cases exDB oidT oidC exTrip rfl rfl).2.2 (by decide)
        (by simp [exTrip, oidB, oidC])).1]⟩

/-- C1: for an existing trip, every read and sub-resource mutation handler
answers with the 403 "Access denied" error exactly when `canAccess` is false
for the caller, and the owner-only handlers (trip update, trip deletion,
collaborator addition) answer with a 403 exactly when the caller is not the
owner. -/
theorem C1_access_control (db : DB) (tid sid fresh email uid : String)
    (a : Activity) (e : Expense) (it : PackingItem)
    (orders : List (String × Int)) (u : TripUpdate) (now : Int) (t : Trip)
    (hv : isValidOid tid = true) (hs : isValidOid sid = true)
    (ht : findTrip db tid = some t) :
    (get_trip db tid uid = .error ⟨403, "Access denied"⟩ ↔ canAccess t uid = false) ∧
    (get_trip_activities db tid uid = .error ⟨403, "Access denied"⟩ ↔ canAccess t uid = false) ∧
    (get_trip_expenses db tid uid = .error ⟨403, "Access denied"⟩ ↔ canAccess t uid = false) ∧
    (get_expense_summary db tid uid = .error ⟨403, "Access denied"⟩ ↔ canAccess t uid = false) ∧
    ((create_activity db tid a fresh uid).2 = .error ⟨403, "Access denied"⟩ ↔ canAccess t uid = false) ∧
    ((update_activity db tid sid a uid).2 = .error ⟨403, "Access denied"⟩ ↔ canAccess t uid = false) ∧
    ((delete_activity db tid sid uid).2 = .error ⟨403, "Access denied"⟩ ↔ canAccess t uid = false) ∧
    ((reorder_activities db tid orders uid).2 = .error ⟨403, "Access denied"⟩ ↔ canAccess t uid = false) ∧
    ((create_expense db tid e fresh uid).2 = .error ⟨403, "Access denied"⟩ ↔ canAccess t uid = false) ∧
    ((update_expense db tid sid e uid).2 = .error ⟨403, "Access denied"⟩ ↔ canAccess t uid = false) ∧
    ((delete_expense db tid sid uid).2 = .error ⟨403, "Access denied"⟩ ↔ canAccess t uid = false) ∧
    ((create_packing_item db tid it fresh uid).2 = .error ⟨403, "Access denied"⟩ ↔ canAccess t uid = false) ∧
    ((update_packing_item db tid sid it uid).2 = .error ⟨403, "Access denied"⟩ ↔ canAccess t uid = false) ∧
    ((delete_packing_item db tid sid uid).2 = .error ⟨403, "Access denied"⟩ ↔ canAccess t uid = false) ∧
    ((toggle_packing_item db tid sid uid).2 = .error ⟨403, "Access denied"⟩ ↔ canAccess t uid = false) ∧
    (denies403 (update_trip db tid u now uid).2 = true ↔ t.owner_id ≠ uid) ∧
    (denies403 (delete_trip db tid uid).2 = true ↔ t.owner_id ≠ uid) ∧
    (denies403 (add_collaborator db tid email uid).2 = true ↔ t.owner_id ≠ uid) := by
  by_cases hacc : canAccess t uid = true
  · have hd : deniesAccess t uid = false := by
      rw [deniesAccess_eq_not_canAccess, hacc]; rfl
    refine ⟨?_, ?_, ?_, ?_, ?_, ?_, ?_, ?_, ?_, ?_, ?_, ?_, ?_, ?_, ?_, ?_, ?_, ?_⟩
    · rw [get_trip_run db tid uid t hv ht hd]; simp [hacc]
    · rw [get_trip_activities_run db tid uid t hv ht hd]; simp [hacc]
    · rw [get_trip_expenses_run db tid uid t hv ht hd]; simp [hacc]
    · rw [get_expense_summary_run db tid uid t hv ht hd]; simp [hacc]
    · rw [create_activity_run db tid fresh uid a t hv ht hd]; simp [hacc]
    · rw [update_activity_run db tid sid uid a t hv hs ht hd]; simp [hacc]
    · rw [delete_activity_run db tid sid uid t hv hs ht hd]; simp [hacc]
    · rw [reorder_activities_run db tid uid orders t hv ht hd]; simp [hacc]
    · rw [create_expense_run db tid fresh uid e t hv ht hd]; simp [hacc]
    · rw [update_expense_run db tid sid uid e t hv hs ht hd]; simp [hacc]
    · rw [delete_expense_run db tid sid uid t hv hs ht hd]; simp [hacc]
    · rw [create_packing_item_run db tid fresh uid it t hv ht hd]; simp [hacc]
    · rw [update_packing_item_run db tid sid uid it t hv hs ht hd]; simp [hacc]
    · rw [delete_packing_item_run db tid sid uid t hv hs ht hd]; simp [hacc]
    · cases hfind : t.packing_items.find? (fun x => x.id == sid) with
      | some it2 =>
        rw [toggle_packing_item_run_found db tid sid uid t it2 hv hs ht hd hfind]
        simp [hacc]
      | none =>
        rw [toggle_packing_item_run_absent db tid sid uid t hv hs ht hd hfind]
        simp [hacc]
    · by_cases hown : t.owner_id = uid
      · by_cases hemp : u.isEmptyUpd = true
        · rw [update_trip_run_empty db tid uid u now t hv ht hown hemp]
          simp [denies403, hown]
        · rw [update_trip_run_set db tid uid u now t hv ht hown (by simpa using hemp)]
          simp [denies403, hown]
      · have h403 : (update_trip db tid u now uid).2 =
            .error ⟨403, "Only trip owner can update trip details"⟩ := by
          simp [update_trip, hv, ht, hown]
        rw [h403]; simp [denies403, hown]
    · by_cases hown : t.owner_id = uid
      · rw [delete_trip_run db tid uid t hv ht hown]; simp [denies403, hown]
      · have h403 : (delete_trip db tid uid).2 =
            .error ⟨403, "Only trip owner can delete trip"⟩ := by
          simp [delete_trip, hv, ht, hown]
        rw [h403]; simp [denies403, hown]
    · by_cases hown : t.owner_id = uid
      · cases hu2 : findUser db email with
        | none =>
          have h404 : (add_collaborator db tid email uid).2 =
              .error ⟨404, "User not found"⟩ := by
            simp [add_collaborator, hv, ht, hown, hu2]
          rw [h404]; simp [denies403, hown]
        | some v =>
          by_cases hmem : v.id ∈ t.collaborators
          · rw [add_collaborator_run_mem db tid email uid t v hv ht hown hu2 hmem]
            simp [denies403, hown]
          · rw [add_collaborator_run_new db tid email uid t v hv ht hown hu2 hmem]
            simp [denies403, hown]
      · have h403 : (add_collaborator db tid email uid).2 =
            .error ⟨403, "Only trip owner can add collaborators"⟩ := by
          simp [add_collaborator, hv, ht, hown]
        rw [h403]; simp [denies403, hown]
  · have hacc2 : canAccess t uid = false := by simpa using hacc
    have hd : deniesAccess t uid = true := by
      rw [deniesAccess_eq_not_canAccess, hacc2]; rfl
    have hne : t.owner_id ≠ uid := by
      intro h
      rw [canAccess, h] at hacc2
      simp at hacc2
    refine ⟨?_, ?_, ?_, ?_, ?_, ?_, ?_, ?_, ?_, ?_, ?_, ?_, ?_, ?_, ?_, ?_, ?_, ?_⟩
    · simp [get_trip, hv, ht, hd, hacc2]
    · simp [get_trip_activities, hv, ht, hd, hacc2]
    · simp [get_trip_expenses, hv, ht, hd, hacc2]
    · simp [get_expense_summary, hv, ht, hd, hacc2]
    · simp [create_activity, hv, ht, hd, hacc2]
    · simp [update_activity, hv, hs, ht, hd, hacc2]
    · simp [delete_activity, hv, hs, ht, hd, hacc2]
    · simp [reorder_activities, hv, ht, hd, hacc2]
    · simp [create_expense, hv, ht, hd, hacc2]
    · simp [update_expense, hv, hs, ht, hd, hacc2]
    · simp [delete_expense, hv, hs, ht, hd, hacc2]
    · simp [create_packing_item, hv, ht, hd, hacc2]
    · simp [update_packing_item, hv, hs, ht, hd, hacc2]
    · simp [delete_packing_item, hv, hs, ht, hd, hacc2]
    · simp [toggle_packing_item, hv, hs, ht, hd, hacc2]
    · simp [update_trip, hv, ht, hne, denies403]
    · simp [delete_trip, hv, ht, hne, denies403]
    · simp [add_collaborator, hv, ht, hne, denies403]

/-- Witness for C1: the stranger `oidC` against the fixture store. -/
theorem C1_access_control_witness :
    (get_trip exDB oidT oidC = .error ⟨403, "Access denied"⟩ ↔ canAccess exTrip oidC = false) ∧
    (get_trip_activities exDB oidT oidC = .error ⟨403, "Access denied"⟩ ↔ canAccess exTrip oidC = false) ∧
    (get_trip_expenses exDB oidT oidC = .error ⟨403, "Access denied"⟩ ↔ canAccess exTrip oidC = false) ∧
    (get_expense_summary exDB oidT oidC = .error ⟨403, "Access denied"⟩ ↔ canAccess exTrip oidC = false) ∧
    ((create_activity exDB oidT exAct oidF oidC).2 = .error ⟨403, "Access denied"⟩ ↔ canAccess exTrip oidC = false) ∧
    ((update_activity exDB oidT oidX exAct oidC).2 = .error ⟨403, "Access denied"⟩ ↔ canAccess exTrip oidC = false) ∧
    ((delete_activity exDB oidT oidX oidC).2 = .error ⟨403, "Access denied"⟩ ↔ canAccess exTrip oidC = false) ∧
    ((reorder_activities exDB oidT [] oidC).2 = .error ⟨403, "Access denied"⟩ ↔ canAccess exTrip oidC = false) ∧
    ((create_expense exDB oidT exExp1 oidF oidC).2 = .error ⟨403, "Access denied"⟩ ↔ canAccess exTrip oidC = false) ∧
    ((update_expense exDB oidT oidX exExp1 oidC).2 = .error ⟨403, "Access denied"⟩ ↔ canAccess exTrip oidC = false) ∧
    ((delete_expense exDB oidT oidX oidC).2 = .error ⟨403, "Access denied"⟩ ↔ canAccess exTrip oidC = false) ∧
    ((create_packing_item exDB oidT exItem oidF oidC).2 = .error ⟨403, "Access denied"⟩ ↔ canAccess exTrip oidC = false) ∧
    ((update_packing_item exDB oidT oidX exItem oidC).2 = .error ⟨403, "Access denied"⟩ ↔ canAccess exTrip oidC = false) ∧
    ((delete_packing_item exDB oidT oidX oidC).2 = .error ⟨403, "Access denied"⟩ ↔ canAccess exTrip oidC = false) ∧
    ((toggle_packing_item exDB oidT oidX oidC).2 = .error ⟨403, "Access denied"⟩ ↔ canAccess exTrip oidC = false) ∧
    (denies403 (update_trip exDB oidT exUpd 5 oidC).2 = true ↔ exTrip.owner_id ≠ oidC) ∧
    (denies403 (delete_trip exDB oidT oidC).2 = true ↔ exTrip.owner_id ≠ oidC) ∧
    (denies403 (add_collaborator exDB oidT "collab@example.com" oidC).2 = true ↔ exTrip.owner_id ≠ oidC) :=
  C1_access_control exDB oidT oidX oidF "collab@example.com" oidC exAct exExp1
    exItem [] exUpd 5 exTrip rfl rfl rfl

theorem lookupCat_addToCategory (c2 : String) (amt : ℚ) (c : String) :
    ∀ m : List (String × ℚ),
      lookupCat (addToCategory m c2 amt) c =
        if c2 == c then some ((lookupCat m c).getD 0 + amt) else lookupCat m c := by
  intro m
  induction m with
  | nil =>
    by_cases hc : c2 = c <;> simp [addToCategory, lookupCat, hc]
  | cons kv rest ih =>
    obtain ⟨k, v⟩ := kv
    by_cases hk : k = c2
    · subst hk
      by_cases hc : k = c <;> simp [addToCategory, lookupCat, hc]
    · by_cases hkc : k = c
      · have hc : ¬ c2 = c := fun h => hk (hkc.trans h.symm)
        have hk2 : ¬ c = c2 := fun h => hk (hkc.trans h)
        simp [addToCategory, lookupCat, hk, hkc, hc, hk2]
      · simp [addToCategory, lookupCat, hk, hkc, ih]

theorem lookupCat_categoryTotals_aux (c : String) :
    ∀ (es : List Expense) (m : List (String × ℚ)),
      lookupCat (es.foldl (fun m2 e => addToCategory m2 e.category e.amount) m) c =
        (match lookupCat m c with
         | some v => some (v + sumCat es c)
         | none =>
           if es.any (fun e => e.category == c) then some (sumCat es c) else none) := by
  intro es
  induction es with
  | nil =>
    intro m
    cases hm : lookupCat m c <;> simp [sumCat, hm]
  | cons e rest ih =>
    intro m
    simp only [List.foldl_cons]
    rw [ih, lookupCat_addToCategory]
    have hsum : sumCat (e :: rest) c =
        if e.category == c then e.amount + sumCat rest c else sumCat rest c := by
      by_cases hc : e.category = c <;> simp [sumCat, List.filter_cons, hc]
    by_cases hc : e.category = c
    · cases hm : lookupCat m c with
      | none => simp [hm, hsum, hc, add_assoc]
      | some v => simp [hm, hsum, hc, add_assoc]
    · cases hm : lookupCat m c with
      | none => simp [hm, hsum, hc]
      | some v => simp [hm, hsum, hc]

/-- The `category_totals` dict maps each category occurring in the expense
list to the sum of the amounts in that category, and holds no other key. -/
theorem lookupCat_categoryTotals (es : List Expense) (c : String) :
    lookupCat (categoryTotals es) c =
      (if es.any (fun e => e.category == c) then some (sumCat es c) else none) := by
  unfold categoryTotals
  rw [lookupCat_categoryTotals_aux]
  simp [lookupCat]

/-- C6: for an accessible trip, the expense summary reports
`total_spent = Σ amount`, `remaining = budget - total_spent`, and a category
breakdown sending each occurring category to its summed amount. -/
theorem C6_expense_summary (db : DB) (tid uid : String) (t : Trip) (c : String)
    (hv : isValidOid tid = true) (ht : findTrip db tid = some t)
    (hacc : canAccess t uid = true) :
    get_expense_summary db tid uid =
      .ok ⟨t.budget, (t.expenses.map (fun e => e.amount)).sum,
           t.budget - (t.expenses.map (fun e => e.amount)).sum,
           categoryTotals t.expenses⟩ ∧
    lookupCat (categoryTotals t.expenses) c =
      (if t.expenses.any (fun e => e.category == c) then some (sumCat t.expenses c) else none) := by
  have hd : deniesAccess t uid = false := by
    rw [deniesAccess_eq_not_canAccess, hacc]; rfl
  exact ⟨get_expense_summary_run db tid uid t hv ht hd,
         lookupCat_categoryTotals t.expenses c⟩

/-- Witness for C6: the spec's worked example — expenses 100/food, 50/food,
30/transport against budget 500 give total 180, remaining 320, and breakdown
food ↦ 150, transport ↦ 30. -/
theorem C6_expense_summary_witness :
    get_expense_summary exDB oidT oidA =
      .ok ⟨500, 180, 320, [("food", 150), ("transport", 30)]⟩ ∧
    lookupCat (categoryTotals exTrip.expenses) "food" = some 150 ∧
    lookupCat (categoryTotals exTrip.expenses) "transport" = some 30 := by
  have h := C6_expense_summary exDB oidT oidA exTrip "food" rfl rfl rfl
  refine ⟨?_, ?_, ?_⟩
  · rw [h.1]
    have h2 : categoryTotals exTrip.expenses = [("food", 100 + 50), ("transport", 30)] := rfl
    have h3 : (exTrip.expenses.map (fun e => e.amount)).sum = 100 + (50 + (30 + 0)) := rfl
    rw [h2, h3]
    norm_num [exTrip]
  · rw [h.2]
    have h4 : (exTrip.expenses.any (fun e => e.category == "food")) = true := rfl
    rw [h4]
    have h5 : sumCat exTrip.expenses "food" = 100 + (50 + 0) := rfl
    rw [if_pos rfl, h5]
    norm_num
  · rw [lookupCat_categoryTotals exTrip.expenses "transport"]
    have h4 : (exTrip.expenses.any (fun e => e.category == "transport")) = true := rfl
    rw [h4]
    have h5 : sumCat exTrip.expenses "transport" = 30 + 0 := rfl
    rw [if_pos rfl, h5]
    norm_num

/-- C9: creating an activity returns the created element whose identifier is
the freshly server-assigned one (distinct from the client-supplied identifier
and from every identifier already in the trip) and whose every other field
equals the submitted value; reading the trip's activities afterwards returns
the previous list with exactly that element appended. -/
theorem C9_create_read_roundtrip (db : DB) (tid fresh uid : String)
    (a : Activity) (t : Trip)
    (hv : isValidOid tid = true) (ht : findTrip db tid = some t)
    (hacc : canAccess t uid = true)
    (hfresh : t.activities.any (fun x => x.id == fresh) = false)
    (hneq : fresh ≠ a.id) :
    (create_activity db tid a fresh uid).2 = .ok { a with id := fresh } ∧
    ({ a with id := fresh }).id ≠ a.id ∧
    ({ a with id := fresh }).title = a.title ∧
    ({ a with id := fresh }).time = a.time ∧
    ({ a with id := fresh }).location = a.location ∧
    ({ a with id := fresh }).activity_type = a.activity_type ∧
    ({ a with id := fresh }).notes = a.notes ∧
    ({ a with id := fresh }).cost = a.cost ∧
    ({ a with id := fresh }).day = a.day ∧
    ({ a with id := fresh }).order = a.order ∧
    t.activities.all (fun x => !(x.id == ({ a with id := fresh }).id)) = true ∧
    get_trip_activities (create_activity db tid a fresh uid).1 tid uid =
      .ok (t.activities ++ [{ a with id := fresh }]) := by
  have hd : deniesAccess t uid = false := by
    rw [deniesAccess_eq_not_canAccess, hacc]; rfl
  refine ⟨?_, hneq, rfl, rfl, rfl, rfl, rfl, rfl, rfl, rfl, ?_, ?_⟩
  · rw [create_activity_run db tid fresh uid a t hv ht hd]
  · rw [List.any_eq_false] at hfresh
    rw [List.all_eq_true]
    intro x hx
    simpa using hfresh x hx
  · have ht1 : findTrip (modifyTrip db tid (pushActivity { a with id := fresh })) tid =
        some (pushActivity { a with id := fresh } t) := by
      rw [findTrip_modifyTrip_self db tid (pushActivity _) (fun t2 => rfl), ht]; rfl
    have hd1 : deniesAccess (pushActivity { a with id := fresh } t) uid = false := hd
    simp only [create_activity_run db tid fresh uid a t hv ht hd]
    rw [get_trip_activities_run (modifyTrip db tid (pushActivity { a with id := fresh }))
      tid uid (pushActivity { a with id := fresh } t) hv ht1 hd1]
    rfl

/-- Witness for C9: the collaborator creates a copy of the fixture activity
carrying a client-supplied id; the stored element gets the fresh id `oidF`. -/
theorem C9_create_read_roundtrip_witness :
    (create_activity exDB oidT exAct oidF oidB).2 = .ok { exAct with id := oidF } ∧
    get_trip_activities (create_activity exDB oidT exAct oidF oidB).1 oidT oidB =
      .ok (exTrip.activities ++ [{ exAct with id := oidF }]) :=
  ⟨(C9_create_read_roundtrip exDB oidT oidF oidB exAct exTrip rfl rfl rfl rfl
      (by decide)).1,
   (C9_create_read_roundtrip exDB oidT oidF oidB exAct exTrip rfl rfl rfl rfl
      (by decide)).2.2.2.2.2.2.2.2.2.2.2⟩

theorem findTrip_handler_proj {β : Type} (db : DB) (tid : String)
    (m : Trip → Trip) (t : Trip) (g : Trip → β)
    (ht : findTrip db tid = some t) (hid : ∀ t2, (m t2).id = t2.id) :
    (findTrip (modifyTrip db tid m) tid).map g = some (g (m t)) := by
  rw [findTrip_modifyTrip_self db tid m hid, ht]; rfl

/-- C10: every add, update, delete, reorder, or toggle on one embedded
collection leaves the other two collections and all scalar trip fields —
including `updated_at` — unchanged, while the trip-detail update (with a
non-empty payload) refreshes `updated_at` to the current time and leaves the
three collections, the owner, the collaborators and `created_at` unchanged. -/
theorem C10_sub_resource_frame (db : DB) (tid sid fresh uid : String)
    (a : Activity) (e : Expense) (it : PackingItem) (itf : PackingItem)
    (orders : List (String × Int)) (u : TripUpdate) (now : Int) (t : Trip)
    (hv : isValidOid tid = true) (hs : isValidOid sid = true)
    (ht : findTrip db tid = some t) (hacc : canAccess t uid = true)
    (hown : t.owner_id = uid) (hne : u.isEmptyUpd = false)
    (hfind : t.packing_items.find? (fun x => x.id == sid) = some itf) :
    ((findTrip (create_activity db tid a fresh uid).1 tid).map
        (fun t2 => (tripScalars t2, t2.expenses, t2.packing_items)) =
      some (tripScalars t, t.expenses, t.packing_items)) ∧
    ((findTrip (update_activity db tid sid a uid).1 tid).map
        (fun t2 => (tripScalars t2, t2.expenses, t2.packing_items)) =
      some (tripScalars t, t.expenses, t.packing_items)) ∧
    ((findTrip (delete_activity db tid sid uid).1 tid).map
        (fun t2 => (tripScalars t2, t2.expenses, t2.packing_items)) =
      some (tripScalars t, t.expenses, t.packing_items)) ∧
    ((findTrip (reorder_activities db tid orders uid).1 tid).map
        (fun t2 => (tripScalars t2, t2.expenses, t2.packing_items)) =
      some (tripScalars t, t.expenses, t.packing_items)) ∧
    ((findTrip (create_expense db tid e fresh uid).1 tid).map
        (fun t2 => (tripScalars t2, t2.activities, t2.packing_items)) =
      some (tripScalars t, t.activities, t.packing_items)) ∧
    ((findTrip (update_expense db tid sid e uid).1 tid).map
        (fun t2 => (tripScalars t2, t2.activities, t2.packing_items)) =
      some (tripScalars t, t.activities, t.packing_items)) ∧
    ((findTrip (delete_expense db tid sid uid).1 tid).map
        (fun t2 => (tripScalars t2, t2.activities, t2.packing_items)) =
      some (tripScalars t, t.activities, t.packing_items)) ∧
    ((findTrip (create_packing_item db tid it fresh uid).1 tid).map
        (fun t2 => (tripScalars t2, t2.activities, t2.expenses)) =
      some (tripScalars t, t.activities, t.expenses)) ∧
    ((findTrip (update_packing_item db tid sid it uid).1 tid).map
        (fun t2 => (tripScalars t2, t2.activities, t2.expenses)) =
      some (tripScalars t, t.activities, t.expenses)) ∧
    ((findTrip (delete_packing_item db tid sid uid).1 tid).map
        (fun t2 => (tripScalars t2, t2.activities, t2.expenses)) =
      some (tripScalars t, t.activities, t.expenses)) ∧
    ((findTrip (toggle_packing_item db tid sid uid).1 tid).map
        (fun t2 => (tripScalars t2, t2.activities, t2.expenses)) =
      some (tripScalars t, t.activities, t.expenses)) ∧
    ((findTrip (update_trip db tid u now uid).1 tid).map
        (fun t2 => (t2.owner_id, t2.collaborators, t2.activities, t2.expenses,
                    t2.packing_items, t2.created_at, t2.updated_at)) =
      some (t.owner_id, t.collaborators, t.activities, t.expenses,
            t.packing_items, t.created_at, now)) := by
  have hd : deniesAccess t uid = false := by
    rw [deniesAccess_eq_not_canAccess, hacc]; rfl
  refine ⟨?_, ?_, ?_, ?_, ?_, ?_, ?_, ?_, ?_, ?_, ?_, ?_⟩
  · simp only [create_activity_run db tid fresh uid a t hv ht hd]
    rw [findTrip_handler_proj db tid (pushActivity { a with id := fresh }) t _ ht (fun t2 => rfl)]
    rfl
  · simp only [update_activity_run db tid sid uid a t hv hs ht hd]
    rw [findTrip_handler_proj db tid (replaceActivity sid { a with id := sid }) t _ ht
      (replaceActivity_id sid _)]
    unfold replaceActivity
    split <;> rfl
  · simp only [delete_activity_run db tid sid uid t hv hs ht hd]
    rw [findTrip_handler_proj db tid (pullActivity sid) t _ ht (fun t2 => rfl)]
    rfl
  · simp only [reorder_activities_run db tid uid orders t hv ht hd]
    rw [findTrip_handler_proj db tid (setOrders orders) t _ ht (fun t2 => rfl)]
    rfl
  · simp only [create_expense_run db tid fresh uid e t hv ht hd]
    rw [findTrip_handler_proj db tid (pushExpense { e with id := fresh }) t _ ht (fun t2 => rfl)]
    rfl
  · simp only [update_expense_run db tid sid uid e t hv hs ht hd]
    rw [findTrip_handler_proj db tid (replaceExpense sid { e with id := sid }) t _ ht
      (replaceExpense_id sid _)]
    unfold replaceExpense
    split <;> rfl
  · simp only [delete_expense_run db tid sid uid t hv hs ht hd]
    rw [findTrip_handler_proj db tid (pullExpense sid) t _ ht (fun t2 => rfl)]
    rfl
  · simp only [create_packing_item_run db tid fresh uid it t hv ht hd]
    rw [findTrip_handler_proj db tid (pushPackingItem { it with id := fresh }) t _ ht (fun t2 => rfl)]
    rfl
  · simp only [update_packing_item_run db tid sid uid it t hv hs ht hd]
    rw [findTrip_handler_proj db tid (replacePackingItem sid { it with id := sid }) t _ ht
      (replacePackingItem_id sid _)]
    unfold replacePackingItem
    split <;> rfl
  · simp only [delete_packing_item_run db tid sid uid t hv hs ht hd]
    rw [findTrip_handler_proj db tid (pullPackingItem sid) t _ ht (fun t2 => rfl)]
    rfl
  · simp only [toggle_packing_item_run_found db tid sid uid t itf hv hs ht hd hfind]
    rw [findTrip_handler_proj db tid (setPacked sid (!itf.packed)) t _ ht (fun t2 => rfl)]
    rfl
  · simp only [update_trip_run_set db tid uid u now t hv ht hown hne]
    rw [findTrip_handler_proj db tid (applyTripUpdate u now) t _ ht (fun t2 => rfl)]
    rfl

/-- Witness for C10 at the fixture store: the owner runs each operation. -/
theorem C10_sub_resource_frame_witness :
    ((findTrip (create_expense exDB oidT exExp1 oidF oidA).1 oidT).map
        (fun t2 => (tripScalars t2, t2.activities, t2.packing_items)) =
      some (tripScalars exTrip, exTrip.activities, exTrip.packing_items)) ∧
    ((findTrip (delete_packing_item exDB oidT exItem.id oidA).1 oidT).map
        (fun t2 => (tripScalars t2, t2.activities, t2.expenses)) =
      some (tripScalars exTrip, exTrip.activities, exTrip.expenses)) ∧
    ((findTrip (reorder_activities exDB oidT [(exAct.id, 7)] oidA).1 oidT).map
        (fun t2 => (tripScalars t2, t2.expenses, t2.packing_items)) =
      some (tripScalars exTrip, exTrip.expenses, exTrip.packing_items)) ∧
    ((findTrip (update_trip exDB oidT exUpd 5 oidA).1 oidT).map
        (fun t2 => (t2.owner_id, t2.collaborators, t2.activities, t2.expenses,
                    t2.packing_items, t2.created_at, t2.updated_at)) =
      some (exTrip.owner_id, exTrip.collaborators, exTrip.activities,
            exTrip.expenses, exTrip.packing_items, exTrip.created_at, 5)) :=
  ⟨(C10_sub_resource_frame exDB oidT exItem.id oidF oidA exAct exExp1 exItem
      exItem [(exAct.id, 7)] exUpd 5 exTrip rfl rfl rfl rfl rfl rfl rfl).2.2.2.2.1,
   (C10_sub_resource_frame exDB oidT exItem.id oidF oidA exAct exExp1 exItem
      exItem [(exAct.id, 7)] exUpd 5 exTrip rfl rfl rfl rfl rfl rfl rfl).2.2.2.2.2.2.2.2.2.1,
   (C10_sub_resource_frame exDB oidT exItem.id oidF oidA exAct exExp1 exItem
      exItem [(exAct.id, 7)] exUpd 5 exTrip rfl rfl rfl rfl rfl rfl rfl).2.2.2.1,
   (C10_sub_resource_frame exDB oidT exItem.id oidF oidA exAct exExp1 exItem
      exItem [(exAct.id, 7)] exUpd 5 exTrip rfl rfl rfl rfl rfl rfl rfl).2.2.2.2.2.2.2.2.2.2.2⟩

theorem applyReorder_map_actFrame :
    ∀ (orders : List (String × Int)) (acts : List Activity),
      (applyReorder orders acts).map actFrame = acts.map actFrame := by
  intro orders
  induction orders with
  | nil => intro acts; rfl
  | cons p rest ih =>
    intro acts
    show (applyReorder rest
        (if isValidOid p.1 then
          setFirst (fun x => x.id == p.1) (fun x => { x with order := p.2 }) acts
        else acts)).map actFrame = acts.map actFrame
    by_cases hp : isValidOid p.1 = true
    · rw [if_pos hp, ih, setFirst_map actFrame (fun x => x.id == p.1)
        (fun x => { x with order := p.2 }) (fun x => rfl)]
    · rw [if_neg (by simpa using hp), ih]

theorem applyReorder_ids (orders : List (String × Int)) (acts : List Activity) :
    (applyReorder orders acts).map (fun x => x.id) = acts.map (fun x => x.id) := by
  have h := congrArg (List.map (fun q =>
    (q : String × String × String × String × String × String × ℚ × Int).1))
    (applyReorder_map_actFrame orders acts)
  simpa [List.map_map, Function.comp, actFrame] using h

theorem orderOf_applyReorder_skip :
    ∀ (orders : List (String × Int)) (acts : List Activity) (aid : String),
      (∀ p ∈ orders, isValidOid p.1 = true → p.1 ≠ aid) →
      orderOf (applyReorder orders acts) aid = orderOf acts aid := by
  intro orders
  induction orders with
  | nil => intro acts aid _; rfl
  | cons p rest ih =>
    intro acts aid h
    show orderOf (applyReorder rest
        (if isValidOid p.1 then
          setFirst (fun x => x.id == p.1) (fun x => { x with order := p.2 }) acts
        else acts)) aid = orderOf acts aid
    by_cases hp : isValidOid p.1 = true
    · rw [if_pos hp, ih _ aid (fun q hq hv2 => h q (List.mem_cons_of_mem p hq) hv2)]
      unfold orderOf
      rw [find?_setFirst_ne (fun (x : Activity) => x.id == aid)
        (fun (x : Activity) => x.id == p.1)
        (fun (x : Activity) => { x with order := p.2 }) (fun x => rfl) ?_]
      intro x hx
      have hxid : x.id = aid := by simpa using hx
      show (x.id == p.1) = false
      rw [hxid]
      have hne : p.1 ≠ aid := h p (List.mem_cons_self p rest) hp
      exact beq_eq_false_iff_ne.mpr (fun hcontra => hne hcontra.symm)
    · rw [if_neg (by simpa using hp)]
      exact ih acts aid (fun q hq hv2 => h q (List.mem_cons_of_mem p hq) hv2)

theorem find?_eq_some_of_any {α : Type} (p : α → Bool) :
    ∀ l : List α, l.any p = true → ∃ y, l.find? p = some y := by
  intro l
  induction l with
  | nil => intro h; simp at h
  | cons x xs ih =>
    intro h
    by_cases hp : p x = true
    · exact ⟨x, by simp [List.find?, hp]⟩
    · have hp2 : p x = false := by simpa using hp
      have h2 : xs.any p = true := by simpa [List.any_cons, hp2] using h
      obtain ⟨y, hy⟩ := ih h2
      exact ⟨y, by simp [List.find?, hp2, hy]⟩

theorem any_map_ids (aid : String) :
    ∀ l : List Activity,
      (l.map (fun x => x.id)).any (fun s => s == aid) = l.any (fun x => x.id == aid) := by
  intro l
  induction l with
  | nil => rfl
  | cons x xs ih => simp [List.any_cons, ih]

theorem any_id_eq_of_map_eq (l1 l2 : List Activity)
    (h : l1.map (fun x => x.id) = l2.map (fun x => x.id)) (aid : String) :
    l1.any (fun x => x.id == aid) = l2.any (fun x => x.id == aid) := by
  have h1 : ((l1.map (fun x => x.id)).any (fun s => s == aid)) =
      ((l2.map (fun x => x.id)).any (fun s => s == aid)) :=
    congrArg (fun l => List.any l (fun s => s == aid)) h
  rw [any_map_ids aid l1, any_map_ids aid l2] at h1
  exact h1

theorem orderOf_applyReorder_hit :
    ∀ (orders : List (String × Int)) (acts : List Activity) (aid : String) (o : Int),
      (aid, o) ∈ orders → isValidOid aid = true →
      acts.any (fun x => x.id == aid) = true →
      (orders.map Prod.fst).Nodup →
      orderOf (applyReorder orders acts) aid = some o := by
  intro orders
  induction orders with
  | nil =>
    intro acts aid o hmem
    exact absurd hmem (List.not_mem_nil _)
  | cons p rest ih =>
    intro acts aid o hmem hvalid hany hnodup
    have hnd1 : p.1 ∉ rest.map Prod.fst := (List.nodup_cons.mp hnodup).1
    have hnd2 : (rest.map Prod.fst).Nodup := (List.nodup_cons.mp hnodup).2
    show orderOf (applyReorder rest
        (if isValidOid p.1 then
          setFirst (fun x => x.id == p.1) (fun x => { x with order := p.2 }) acts
        else acts)) aid = some o
    rcases List.mem_cons.mp hmem with heq | hmem2
    · have hpid : p.1 = aid := by rw [← heq]
      have hpo : p.2 = o := by rw [← heq]
      rw [if_pos (hpid ▸ hvalid)]
      rw [orderOf_applyReorder_skip rest _ aid ?_]
      · unfold orderOf
        rw [hpid, hpo, find?_setFirst_self (fun (x : Activity) => x.id == aid)
          (fun (x : Activity) => { x with order := o }) (fun x => rfl)]
        obtain ⟨y, hy⟩ := find?_eq_some_of_any (fun (x : Activity) => x.id == aid) acts hany
        rw [hy]
        rfl
      · intro q hq _ hcontra
        exact hnd1 (hpid ▸ hcontra ▸ List.mem_map_of_mem Prod.fst hq)
    · have hids : (if isValidOid p.1 then
          setFirst (fun x => x.id == p.1) (fun x => { x with order := p.2 }) acts
        else acts).map (fun x => x.id) = acts.map (fun x => x.id) := by
        by_cases hp : isValidOid p.1 = true
        · rw [if_pos hp]
          exact setFirst_map (fun x => x.id) (fun x => x.id == p.1)
            (fun x => { x with order := p.2 }) (fun x => rfl) acts
        · rw [if_neg (by simpa using hp)]
      have hany2 : (if isValidOid p.1 then
          setFirst (fun x => x.id == p.1) (fun x => { x with order := p.2 }) acts
        else acts).any (fun x => x.id == aid) = true := by
        rw [any_id_eq_of_map_eq _ acts hids aid]
        exact hany
      exact ih _ aid o hmem2 hvalid hany2 hnd2

/-- C5: reorder succeeds without reporting partial failure, touches no field
of any activity other than `order`, sets the order of each activity whose
identifier occurs (validly) in the request to the paired value, and leaves
the order of every activity not validly mentioned unchanged — absent or
malformed identifiers in the request are silently skipped. -/
theorem C5_reorder_semantics (db : DB) (tid uid : String)
    (orders : List (String × Int)) (t : Trip)
    (hv : isValidOid tid = true) (ht : findTrip db tid = some t)
    (hacc : canAccess t uid = true)
    (hnodup : (orders.map Prod.fst).Nodup) :
    (reorder_activities db tid orders uid).2 = .ok "Activities reordered successfully" ∧
    (findTrip (reorder_activities db tid orders uid).1 tid).map (fun t2 => t2.activities) =
      some (applyReorder orders t.activities) ∧
    (applyReorder orders t.activities).map actFrame = t.activities.map actFrame ∧
    (∀ aid o, (aid, o) ∈ orders → isValidOid aid = true →
      t.activities.any (fun x => x.id == aid) = true →
      orderOf (applyReorder orders t.activities) aid = some o) ∧
    (∀ aid, (∀ p ∈ orders, isValidOid p.1 = true → p.1 ≠ aid) →
      orderOf (applyReorder orders t.activities) aid = orderOf t.activities aid) := by
  have hd : deniesAccess t uid = false := by
    rw [deniesAccess_eq_not_canAccess, hacc]; rfl
  refine ⟨?_, ?_, applyReorder_map_actFrame orders t.activities, ?_, ?_⟩
  · rw [reorder_activities_run db tid uid orders t hv ht hd]
  · simp only [reorder_activities_run db tid uid orders t hv ht hd]
    rw [findTrip_handler_proj db tid (setOrders orders) t _ ht (fun t2 => rfl)]
    rfl
  · intro aid o hmem hvalid hany
    exact orderOf_applyReorder_hit orders t.activities aid o hmem hvalid hany hnodup
  · intro aid hskip
    exact orderOf_applyReorder_skip orders t.activities aid hskip

/-- Witness for C5: a reorder request pairing the fixture activity with order
7 and the malformed identifier "reorder" with order 9 — the valid entry is
applied, the rest silently skipped, and the call succeeds. -/
theorem C5_reorder_semantics_witness :
    (reorder_activities exDB oidT [("reorder", 9), (exAct.id, 7)] oidB).2 =
      .ok "Activities reordered successfully" ∧
    orderOf (applyReorder [("reorder", 9), (exAct.id, 7)] exTrip.activities) exAct.id =
      some 7 ∧
    (applyReorder [("reorder", 9), (exAct.id, 7)] exTrip.activities).map actFrame =
      exTrip.activities.map actFrame ∧
    orderOf (applyReorder [("reorder", 9), (exAct.id, 7)] exTrip.activities) oidX =
      orderOf exTrip.activities oidX :=
  ⟨(C5_reorder_semantics exDB oidT oidB [("reorder", 9), (exAct.id, 7)] exTrip
      rfl rfl rfl (by decide)).1,
   (C5_reorder_semantics exDB oidT oidB [("reorder", 9), (exAct.id, 7)] exTrip
      rfl rfl rfl (by decide)).2.2.2.1 exAct.id 7 (by simp) rfl rfl,
   (C5_reorder_semantics exDB oidT oidB [("reorder", 9), (exAct.id, 7)] exTrip
      rfl rfl rfl (by decide)).2.2.1,
   (C5_reorder_semantics exDB oidT oidB [("reorder", 9), (exAct.id, 7)] exTrip
      rfl rfl rfl (by decide)).2.2.2.2 oidX (by decide)⟩

theorem update_trip_fst (db : DB) (tid : String) (u : TripUpdate) (now : Int)
    (uid : String) :
    (update_trip db tid u now uid).1 = db ∨
    (update_trip db tid u now uid).1 = modifyTrip db tid (applyTripUpdate u now) := by
  unfold update_trip
  by_cases hv : isValidOid tid = true
  · cases ht : findTrip db tid with
    | none => left; simp [hv, ht]
    | some t =>
      by_cases how : (t.owner_id != uid) = true
      · left; simp [hv, ht, how]
      · by_cases he : u.isEmptyUpd = true
        · left; simp [hv, ht, how, he]
        · right
          have he2 : u.isEmptyUpd = false := by simpa using he
          cases h2 : findTrip (modifyTrip db tid (applyTripUpdate u now)) tid <;>
            simp [hv, ht, how, he2, h2]
  · have hv2 : isValidOid tid = false := by simpa using hv
    left; simp [hv2]

theorem add_collaborator_fst (db : DB) (tid email uid : String) :
    (add_collaborator db tid email uid).1 = db ∨
    ∃ v t, findTrip db tid = some t ∧ findUser db email = some v ∧
      v.id ∉ t.collaborators ∧
      (add_collaborator db tid email uid).1 = modifyTrip db tid (pushCollaborator v.id) := by
  unfold add_collaborator
  by_cases hv : isValidOid tid = true
  · cases ht : findTrip db tid with
    | none => left; simp [hv, ht]
    | some t =>
      by_cases how : (t.owner_id != uid) = true
      · left; simp [hv, ht, how]
      · cases hu : findUser db email with
        | none => left; simp [hv, ht, how, hu]
        | some v =>
          by_cases hmem : v.id ∈ t.collaborators
          · left; simp [hv, ht, how, hu, hmem]
          · right
            exact ⟨v, t, rfl, rfl, hmem, by simp [hv, how, hmem]⟩
  · have hv2 : isValidOid tid = false := by simpa using hv
    left; simp [hv2]

theorem join_trip_fst (db : DB) (tid uid : String) :
    (join_trip db tid uid).1 = db ∨
    ∃ t, findTrip db tid = some t ∧ t.owner_id ≠ uid ∧ uid ∉ t.collaborators ∧
      (join_trip db tid uid).1 = modifyTrip db tid (pushCollaborator uid) := by
  unfold join_trip
  by_cases hv : isValidOid tid = true
  · cases ht : findTrip db tid with
    | none => left; simp [hv, ht]
    | some t =>
      by_cases how : t.owner_id = uid
      · left; simp [hv, ht, how]
      · by_cases hmem : uid ∈ t.collaborators
        · left; simp [hv, ht, how, hmem]
        · right
          refine ⟨t, rfl, how, hmem, ?_⟩
          cases h2 : findTrip (modifyTrip db tid (pushCollaborator uid)) tid <;>
            simp [hv, how, hmem, h2]
  · have hv2 : isValidOid tid = false := by simpa using hv
    left; simp [hv2]

theorem applyOp_spec (db : DB) (tid : String) (op : TripOp) (t : Trip)
    (ht : findTrip db tid = some t) :
    (applyOp tid db op).users = db.users ∧
    ∃ t1, findTrip (applyOp tid db op) tid = some t1 ∧
      t1.owner_id = t.owner_id ∧
      (t.owner_id ∉ t.collaborators →
        (∀ email uid2 v, op = TripOp.addC email uid2 →
          findUser db email = some v → v.id ≠ t.owner_id) →
        t1.owner_id ∉ t1.collaborators) := by
  cases op with
  | upd u now uid =>
    have hop : applyOp tid db (TripOp.upd u now uid) = (update_trip db tid u now uid).1 := rfl
    rcases update_trip_fst db tid u now uid with h | h
    · rw [hop, h]
      exact ⟨rfl, t, ht, rfl, fun hinv _ => hinv⟩
    · rw [hop, h]
      refine ⟨rfl, applyTripUpdate u now t, ?_, rfl, ?_⟩
      · rw [findTrip_modifyTrip_self db tid (applyTripUpdate u now) (fun t2 => rfl), ht]
        rfl
      · intro hinv _
        exact hinv
  | addC email uid =>
    have hop : applyOp tid db (TripOp.addC email uid) = (add_collaborator db tid email uid).1 := rfl
    rcases add_collaborator_fst db tid email uid with h | ⟨v, t0, ht0, hu0, hmem0, h⟩
    · rw [hop, h]
      exact ⟨rfl, t, ht, rfl, fun hinv _ => hinv⟩
    · have ht0t : t0 = t := by
        rw [ht] at ht0
        exact ((Option.some.injEq _ _).mp ht0).symm
      subst ht0t
      rw [hop, h]
      refine ⟨rfl, pushCollaborator v.id t0, ?_, rfl, ?_⟩
      · rw [findTrip_modifyTrip_self db tid (pushCollaborator v.id) (fun t2 => rfl), ht]
        rfl
      · intro hinv hsafe
        have hvne : v.id ≠ t0.owner_id := hsafe email uid v rfl hu0
        show t0.owner_id ∉ t0.collaborators ++ [v.id]
        rw [List.mem_append]
        rintro (hc | hc)
        · exact hinv hc
        · exact hvne (List.mem_singleton.mp hc).symm
  | join uid =>
    have hop : applyOp tid db (TripOp.join uid) = (join_trip db tid uid).1 := rfl
    rcases join_trip_fst db tid uid with h | ⟨t0, ht0, hne0, hmem0, h⟩
    · rw [hop, h]
      exact ⟨rfl, t, ht, rfl, fun hinv _ => hinv⟩
    · have ht0t : t0 = t := by
        rw [ht] at ht0
        exact ((Option.some.injEq _ _).mp ht0).symm
      subst ht0t
      rw [hop, h]
      refine ⟨rfl, pushCollaborator uid t0, ?_, rfl, ?_⟩
      · rw [findTrip_modifyTrip_self db tid (pushCollaborator uid) (fun t2 => rfl), ht]
        rfl
      · intro hinv _
        show t0.owner_id ∉ t0.collaborators ++ [uid]
        rw [List.mem_append]
        rintro (hc | hc)
        · exact hinv hc
        · exact hne0 (List.mem_singleton.mp hc)

theorem runOps_spec (tid : String) :
    ∀ (ops : List TripOp) (db : DB) (t : Trip),
      findTrip db tid = some t →
      (∀ email uid2 v, TripOp.addC email uid2 ∈ ops →
        findUser db email = some v → v.id ≠ t.owner_id) →
      t.owner_id ∉ t.collaborators →
      ∃ t1, findTrip (runOps tid db ops) tid = some t1 ∧
        t1.owner_id = t.owner_id ∧ t1.owner_id ∉ t1.collaborators := by
  intro ops
  induction ops with
  | nil =>
    intro db t ht _ hinv
    exact ⟨t, ht, rfl, hinv⟩
  | cons op rest ih =>
    intro db t ht hsafe hinv
    obtain ⟨husers, t1, ht1, hown1, hinv1⟩ := applyOp_spec db tid op t ht
    have hinv1s : t1.owner_id ∉ t1.collaborators :=
      hinv1 hinv (fun email uid2 v hop hu =>
        hsafe email uid2 v (hop ▸ List.mem_cons_self op rest) hu)
    have hsafe1 : ∀ email uid2 v, TripOp.addC email uid2 ∈ rest →
        findUser (applyOp tid db op) email = some v → v.id ≠ t1.owner_id := by
      intro email uid2 v hmem hu
      have hu2 : findUser db email = some v := by
        rw [findUser_of_users_eq (applyOp tid db op) db email husers] at hu
        exact hu
      rw [hown1]
      exact hsafe email uid2 v (List.mem_cons_of_mem op hmem) hu2
    obtain ⟨t2, ht2, hown2, hinv2⟩ := ih (applyOp tid db op) t1 ht1 hsafe1 hinv1s
    exact ⟨t2, ht2, hown2.trans hown1, hinv2⟩

/-- C2, counterexample: the owner of the fixture trip adds their own email as
a collaborator; `add_collaborator` has no owner guard, so afterwards the
stored trip lists its owner among its collaborators. -/
theorem C2_owner_in_collaborators_counterexample :
    (findTrip (runOps oidT exDB [TripOp.addC "owner@example.com" oidA]) oidT).map
      (fun t => t.collaborators.contains t.owner_id) = some true := rfl

theorem applyOp_owner (db : DB) (tid : String) (op : TripOp) :
    (findTrip (applyOp tid db op) tid).map (fun t1 => t1.owner_id) =
      (findTrip db tid).map (fun t1 => t1.owner_id) := by
  cases op with
  | upd u now uid =>
    have hop : applyOp tid db (TripOp.upd u now uid) = (update_trip db tid u now uid).1 := rfl
    rcases update_trip_fst db tid u now uid with h | h
    · rw [hop, h]
    · rw [hop, h, findTrip_modifyTrip_self db tid (applyTripUpdate u now) (fun t2 => rfl)]
      cases h2 : findTrip db tid <;> simp [h2, applyTripUpdate]
  | addC email uid =>
    have hop : applyOp tid db (TripOp.addC email uid) = (add_collaborator db tid email uid).1 := rfl
    rcases add_collaborator_fst db tid email uid with h | ⟨v, t0, _, _, _, h⟩
    · rw [hop, h]
    · rw [hop, h, findTrip_modifyTrip_self db tid (pushCollaborator v.id) (fun t2 => rfl)]
      cases h2 : findTrip db tid <;> simp [h2, pushCollaborator]
  | join uid =>
    have hop : applyOp tid db (TripOp.join uid) = (join_trip db tid uid).1 := rfl
    rcases join_trip_fst db tid uid with h | ⟨t0, _, _, _, h⟩
    · rw [hop, h]
    · rw [hop, h, findTrip_modifyTrip_self db tid (pushCollaborator uid) (fun t2 => rfl)]
      cases h2 : findTrip db tid <;> simp [h2, pushCollaborator]

theorem runOps_owner (tid : String) :
    ∀ (ops : List TripOp) (db : DB),
      (findTrip (runOps tid db ops) tid).map (fun t1 => t1.owner_id) =
        (findTrip db tid).map (fun t1 => t1.owner_id) := by
  intro ops
  induction ops with
  | nil => intro db; rfl
  | cons op rest ih =>
    intro db
    exact (ih (applyOp tid db op)).trans (applyOp_owner db tid op)

/-- C2, amended: a freshly created trip is owned by its creator with an empty
collaborator list; across EVERY sequence of trip updates, collaborator
additions and joins — including sequences whose collaborator additions name
the owner's own email — `owner_id` never changes (none of the three
operations writes it); and the owner stays out of the collaborator list
provided no collaborator addition in the sequence names an email that
resolves to the owner (`add_collaborator` lacks an owner guard, so the
owner's own email does get appended; `join_trip` and trip update can never
re-add the owner). -/
theorem C2_owner_invariants (db : DB) (c : TripCreate) (fresh : String)
    (now : Int) (uid : String) (tid : String) (ops : List TripOp) (t : Trip)
    (ht : findTrip db tid = some t)
    (hsafe : ∀ email uid2 v, TripOp.addC email uid2 ∈ ops →
      findUser db email = some v → v.id ≠ t.owner_id)
    (hinv : t.owner_id ∉ t.collaborators) :
    (create_trip db c fresh now uid).2.owner_id = uid ∧
    (create_trip db c fresh now uid).2.collaborators = [] ∧
    (∀ ops2 : List TripOp,
      (findTrip (runOps tid db ops2) tid).map (fun t1 => t1.owner_id) =
        some t.owner_id) ∧
    ∃ t1, findTrip (runOps tid db ops) tid = some t1 ∧
      t1.owner_id = t.owner_id ∧ t1.owner_id ∉ t1.collaborators :=
  ⟨rfl, rfl,
   fun ops2 => by rw [runOps_owner tid ops2 db, ht]; rfl,
   runOps_spec tid ops db t ht hsafe hinv⟩

/-- Witness for the amended C2: a stranger joins, the owner updates the trip
details and then adds the collaborator's (non-owner) email; ownership and the
owner-not-collaborator invariant survive the whole sequence, and `owner_id`
survives even the sequence in which the owner adds their own email. -/
theorem C2_owner_invariants_witness :
    findTrip exDB oidT = some exTrip ∧
    (exTrip.owner_id ∉ exTrip.collaborators) ∧
    (findTrip (runOps oidT exDB [TripOp.addC "owner@example.com" oidA]) oidT).map
      (fun t1 => t1.owner_id) = some oidA ∧
    (findTrip (runOps oidT exDB
        [TripOp.join oidC, TripOp.upd exUpd 5 oidA,
         TripOp.addC "collab@example.com" oidA]) oidT).map
      (fun t1 => (t1.owner_id, t1.collaborators.contains t1.owner_id)) =
      some (oidA, false) := by
  refine ⟨rfl, by decide, ?_, ?_⟩
  case _ =>
    exact (C2_owner_invariants exDB ⟨"t", "d", 0, 1, 0⟩ oidF 0 oidA oidT []
      exTrip rfl (fun email uid2 v hmem => absurd hmem (List.not_mem_nil _))
      (by decide)).2.2.1 [TripOp.addC "owner@example.com" oidA]
  have hsafe : ∀ email uid2 v, TripOp.addC email uid2 ∈
      [TripOp.join oidC, TripOp.upd exUpd 5 oidA,
       TripOp.addC "collab@example.com" oidA] →
      findUser exDB email = some v → v.id ≠ exTrip.owner_id := by
    intro email uid2 v hmem hu
    simp only [List.mem_cons, List.not_mem_nil, or_false] at hmem
    rcases hmem with h | h | h
    · exact TripOp.noConfusion h
    · exact TripOp.noConfusion h
    · injection h with he hu2
      subst he
      rw [show findUser exDB "collab@example.com" = some exUserB from rfl] at hu
      have hv : exUserB = v := by injection hu
      rw [← hv]
      decide
  obtain ⟨t1, h1, h2, h3⟩ :=
    (C2_owner_invariants exDB ⟨"t", "d", 0, 1, 0⟩ oidF 0 oidA oidT
      [TripOp.join oidC, TripOp.upd exUpd 5 oidA,
       TripOp.addC "collab@example.com" oidA] exTrip rfl hsafe (by decide)).2.2.2
  rw [h1, Option.map_some']
  have hc : t1.collaborators.contains t1.owner_id = false := by simpa using h3
  have ho : t1.owner_id = oidA := h2
  rw [hc, ho]

end VP

